import Mathlib

/-!
Verification of the WikiFit multi-source aggregation layer (`wikimedia.py`)
and the confidence-gated answer extraction (`app.py`) via a shallow
embedding in Lean.  Python values flowing through the adapters are
modelled by a JSON-like inductive type `Json`; Python runtime errors that
the adapters' `except requests.RequestException` clauses do NOT catch
(ValueError, TypeError, KeyError, AttributeError, IndexError) are modelled
by the `Except PyErr` monad.  HTTP responses are inputs to each adapter:
a response is either a transport failure (raises `requests.RequestException`,
caught by the adapters) or a status code with a body; a body that is not
valid JSON makes `response.json()` raise `requests.JSONDecodeError`, which
is a `RequestException` subclass and is likewise caught.
-/

/-- A JSON value / Python object as it appears after `response.json()`:
`null`, booleans, numbers, strings, arrays and string-keyed objects
(JSON objects decode to Python dicts with string keys, in document order). -/
inductive Json where
  | null : Json
  | bool (b : Bool) : Json
  | num (n : Int) : Json
  | str (s : String) : Json
  | arr (elems : List Json) : Json
  | obj (fields : List (String × Json)) : Json

/-- Python truthiness of a JSON-decoded value: `None`, `False`, `0`, `""`,
`[]` and `{}` are falsy, everything else truthy. -/
def Json.truthy : Json → Bool
  | .null => false
  | .bool b => b
  | .num n => n != 0
  | .str s => s != ""
  | .arr l => !l.isEmpty
  | .obj f => !f.isEmpty

mutual

/-- Python `==` on JSON-decoded values: `True == 1`, numbers compare by
value, strings by content, lists elementwise; dict comparison is modelled
fieldwise in document order (CPython compares dicts as unordered maps, but
no adapter ever compares two dicts). -/
def Json.eqb : Json → Json → Bool
  | .null, .null => true
  | .bool a, .bool b => a == b
  | .bool a, .num m => (if a then (1 : Int) else 0) == m
  | .num n, .bool b => n == (if b then (1 : Int) else 0)
  | .num n, .num m => n == m
  | .str a, .str b => a == b
  | .arr xs, .arr ys => Json.eqbList xs ys
  | .obj xs, .obj ys => Json.eqbFields xs ys
  | _, _ => false

/-- Elementwise `Json.eqb` on lists. -/
def Json.eqbList : List Json → List Json → Bool
  | [], [] => true
  | x :: xs, y :: ys => Json.eqb x y && Json.eqbList xs ys
  | _, _ => false

/-- Fieldwise `Json.eqb` on object field lists. -/
def Json.eqbFields : List (String × Json) → List (String × Json) → Bool
  | [], [] => true
  | (k1, v1) :: xs, (k2, v2) :: ys => k1 == k2 && Json.eqb v1 v2 && Json.eqbFields xs ys
  | _, _ => false

end

/-- First binding of a key in an object's field list (Python dicts decoded
from JSON have unique keys; lookup of the first match models `d[k]`). -/
def Json.lookup (fields : List (String × Json)) (k : String) : Option Json :=
  match fields with
  | [] => none
  | (k', v) :: rest => if k' = k then some v else Json.lookup rest k

/-- Uncaught Python runtime errors: the adapters only catch
`requests.RequestException`, so these propagate to the caller. -/
inductive PyErr where
  | valueError : PyErr
  | typeError : PyErr
  | keyError : PyErr
  | attributeError : PyErr
  | indexError : PyErr
deriving DecidableEq, Repr

/-- Python `d.get(k, default)`: only dicts have `.get`; calling it on a
string, list, number, bool or `None` raises `AttributeError`. -/
def pyGet (j : Json) (k : String) (default : Json) : Except PyErr Json :=
  match j with
  | .obj fields =>
    match Json.lookup fields k with
    | some v => .ok v
    | none => .ok default
  | _ => .error .attributeError

/-- Python's whitespace for `str.strip()` / `int()` (characters whose
`str.isspace()` is true). -/
def isPySpace (c : Char) : Bool :=
  c = ' ' || c = '\t' || c = '\n' || c = '\r' ||
  c = '\x0b' || c = '\x0c' ||
  c = '\x1c' || c = '\x1d' || c = '\x1e' || c = '\x1f' || c = '\x85' ||
  c = ' ' || c = ' ' ||
  (' ' ≤ c && c ≤ ' ') ||
  c = ' ' || c = ' ' || c = ' ' || c = ' ' || c = '　'

/-- Python `s.strip()` on a list of characters: drop leading and trailing
whitespace. -/
def pyStripChars (l : List Char) : List Char :=
  (l.rdropWhile isPySpace).dropWhile isPySpace

/-- Python `s.strip()` on strings. -/
def pyStrip (s : String) : String :=
  String.mk (pyStripChars s.data)

/-- Python `int(s)` for a string argument: optional surrounding whitespace,
optional sign, then a non-empty run of decimal digits.  (Underscore digit
separators and non-ASCII decimal digits, which CPython also accepts, do not
occur in MediaWiki page ids and are not modelled.)  Returns `none` when
CPython would raise `ValueError`. -/
def pyIntOfString (s : String) : Option Int :=
  let t := pyStripChars s.data
  let core : Bool × List Char :=
    match t with
    | '-' :: rest => (true, rest)
    | '+' :: rest => (false, rest)
    | _ => (false, t)
  match core with
  | (neg, digits) =>
    if digits = [] then none
    else if digits.all (fun c => '0' ≤ c && c ≤ '9') then
      let n : Nat := digits.foldl (fun acc c => acc * 10 + (c.toNat - '0'.toNat)) 0
      some (if neg then -(n : Int) else (n : Int))
    else none

/-- Python `int(x)` applied to a JSON-decoded value: parses strings,
passes numbers through, converts booleans, and raises `TypeError`
on `None`, lists and dicts. -/
def pyIntOfJson (j : Json) : Except PyErr Int :=
  match j with
  | .str s =>
    match pyIntOfString s with
    | some n => .ok n
    | none => .error .valueError
  | .num n => .ok n
  | .bool b => .ok (if b then 1 else 0)
  | _ => .error .typeError

/-- Substring test on character lists: does `pat` occur in the list? -/
def listContainsSub (pat : List Char) : List Char → Bool
  | [] => pat.isEmpty
  | c :: rest => pat.isPrefixOf (c :: rest) || listContainsSub pat rest

/-- Python substring test `key in s` for strings (the empty key is
contained in every string). -/
def pyStrContains (s key : String) : Bool :=
  listContainsSub key.data s.data

/-- Python `s.replace(old, new)` on character lists for a non-empty
pattern: replace non-overlapping occurrences left to right.  (All call
sites pass literal non-empty patterns; the empty-pattern case, where
CPython inserts `new` between all characters, is not modelled.) -/
def pyReplaceListAux (pat rep : List Char) : Nat → List Char → List Char
  | _, [] => []
  | 0, l => l
  | Nat.succ fuel, c :: rest =>
    if pat.isPrefixOf (c :: rest) && !pat.isEmpty then
      rep ++ pyReplaceListAux pat rep fuel (rest.drop (pat.length - 1))
    else
      c :: pyReplaceListAux pat rep fuel rest

/-- Python `s.replace(old, new)` on strings: the fuel of the structural
auxiliary is the length of the subject, which the recursion never
exhausts (each step consumes at least one character and one unit of
fuel). -/
def pyReplace (s pat rep : String) : String :=
  String.mk (pyReplaceListAux pat.data rep.data s.data.length s.data)

/-- Python `key in container` where the container came from JSON:
dict → key test (a JSON dict is string-keyed, so only string keys can be
present; list/dict keys are unhashable and raise `TypeError`);
string → substring test (a non-string key raises `TypeError`);
list → element equality; numbers, booleans and `None` are not containers
and raise `TypeError`. -/
def pyIn (key : Json) (container : Json) : Except PyErr Bool :=
  match container with
  | .obj fields =>
    match key with
    | .str s => .ok ((Json.lookup fields s).isSome)
    | .arr _ => .error .typeError
    | .obj _ => .error .typeError
    | _ => .ok false
  | .str s =>
    match key with
    | .str k => .ok (pyStrContains s k)
    | _ => .error .typeError
  | .arr elems =>
    .ok (elems.any (fun e => Json.eqb e key))
  | _ => .error .typeError

/-- Python subscript `container[key]` for JSON-decoded values:
dict → lookup (`KeyError` when absent; a JSON dict is string-keyed, so a
number/bool/`None` key is absent and a list/dict key is unhashable →
`TypeError`); string → integer index only; list → integer index only;
numbers, booleans and `None` are not subscriptable. -/
def pyIndex (container : Json) (key : Json) : Except PyErr Json :=
  match container with
  | .obj fields =>
    match key with
    | .str s =>
      match Json.lookup fields s with
      | some v => .ok v
      | none => .error .keyError
    | .arr _ => .error .typeError
    | .obj _ => .error .typeError
    | _ => .error .keyError
  | .str s =>
    match key with
    | .num n =>
      let i : Int := if n < 0 then n + s.data.length else n
      if h : 0 ≤ i ∧ i.toNat < s.data.length then
        .ok (.str (String.singleton (s.data.get ⟨i.toNat, h.2⟩)))
      else .error .indexError
    | .bool b =>
      if h : (if b then 1 else 0) < s.data.length then
        .ok (.str (String.singleton (s.data.get ⟨if b then 1 else 0, h⟩)))
      else .error .indexError
    | _ => .error .typeError
  | .arr elems =>
    match key with
    | .num n =>
      let i : Int := if n < 0 then n + elems.length else n
      if h : 0 ≤ i ∧ i.toNat < elems.length then
        .ok (elems.get ⟨i.toNat, h.2⟩)
      else .error .indexError
    | .bool b =>
      if h : (if b then 1 else 0) < elems.length then
        .ok (elems.get ⟨if b then 1 else 0, h⟩)
      else .error .indexError
    | _ => .error .typeError
  | _ => .error .typeError

/-- Python `for x in container`: dicts iterate their keys (as strings,
in insertion order), strings iterate one-character strings, lists iterate
their elements; numbers, booleans and `None` raise `TypeError`. -/
def pyIter (container : Json) : Except PyErr (List Json) :=
  match container with
  | .obj fields => .ok (fields.map (fun kv => Json.str kv.1))
  | .str s => .ok (s.data.map (fun c => Json.str (String.singleton c)))
  | .arr elems => .ok elems
  | _ => .error .typeError

/-- Python `x.strip()` on a JSON-decoded value: only strings have
`.strip`; anything else raises `AttributeError`. -/
def pyStripJson (j : Json) : Except PyErr Json :=
  match j with
  | .str s => .ok (.str (pyStrip s))
  | _ => .error .attributeError

/-- A JSON-decoded value used where a Python `str` method is about to be
called (`.replace`, `str.join` elements): non-strings raise. -/
def pyAsString (j : Json) : Except PyErr String :=
  match j with
  | .str s => .ok s
  | _ => .error .attributeError

/-- Python `sep.join(items)` over JSON-decoded values: every item must be
a string, otherwise `TypeError`. -/
def pyJoin (sep : String) (items : List Json) : Except PyErr String :=
  match items with
  | [] => .ok ""
  | [j] => pyAsString j
  | j :: rest => do
    let s ← pyAsString j
    let r ← pyJoin sep rest
    .ok (s ++ sep ++ r)

/-- The outcome of one `requests.get` call as the adapter observes it:
either the call raised `requests.RequestException` (timeout, DNS failure,
connection refused — always caught by the adapters), or it produced a
status code and a body.  `body = none` means the body is not valid JSON,
so `response.json()` raises `requests.JSONDecodeError`, a
`RequestException` subclass that the adapters likewise catch. -/
inductive HttpResult where
  | transportError : HttpResult
  | response (status : Nat) (body : Option Json) : HttpResult

/-- A single-quote character, used to assemble the source's message
strings. -/
def squote : String := String.singleton '\''

/-! ## The nine source adapters (`src/wikimedia.py`)

Each adapter receives, besides the search term, the outcome of the HTTP
request(s) it issues (request construction — URLs and query parameters —
has no effect on the returned value and is not modelled).  The adapter
body is a line-by-line translation of the Python source; the result is
the Python return value (`Json`), or a `PyErr` when the Python code would
raise an exception not caught by its `except requests.RequestException`
clause. -/

/-- Shared helper `data.get("query", {}).get("pages", {})` of the five
MediaWiki extract adapters. -/
def mwPages (data : Json) : Except PyErr Json := do
  let q ← pyGet data "query" (.obj [])
  pyGet q "pages" (.obj [])

/-- The page loop of `get_wiktionary_definition` (lines 70–72):
`for page_id in pages: if "extract" in pages[page_id]: return
pages[page_id]["extract"]`.  Note: no `int(page_id) > 0` guard here,
unlike the other extract adapters. -/
def mwExtractLoop (pages : Json) : List Json → Except PyErr (Option Json)
  | [] => .ok none
  | pid :: rest => do
    let page ← pyIndex pages pid
    let b ← pyIn (.str "extract") page
    if b then
      let e ← pyIndex page (.str "extract")
      .ok (some e)
    else mwExtractLoop pages rest

/-- The page loop of `get_wikibooks_content`, `get_wikiversity_resources`
and `get_wikispecies_info`: `for page_id in pages: if int(page_id) > 0 and
"extract" in pages[page_id]: return pages[page_id]["extract"]`. -/
def mwExtractLoopGuarded (pages : Json) : List Json → Except PyErr (Option Json)
  | [] => .ok none
  | pid :: rest => do
    let n ← pyIntOfJson pid
    if n > 0 then
      let page ← pyIndex pages pid
      let b ← pyIn (.str "extract") page
      if b then
        let e ← pyIndex page (.str "extract")
        .ok (some e)
      else mwExtractLoopGuarded pages rest
    else mwExtractLoopGuarded pages rest

/-- The page loop of `get_wikiquote_quotes` (lines 101–105): like the
guarded loop but the extract is `.strip()`ed and only returned when
non-empty. -/
def quoteLoop (pages : Json) : List Json → Except PyErr (Option Json)
  | [] => .ok none
  | pid :: rest => do
    let n ← pyIntOfJson pid
    if n > 0 then
      let page ← pyIndex pages pid
      let b ← pyIn (.str "extract") page
      if b then
        let e ← pyIndex page (.str "extract")
        let content ← pyStripJson e
        if content.truthy then .ok (some content)
        else quoteLoop pages rest
      else quoteLoop pages rest
    else quoteLoop pages rest

/-- Embeds `get_wikipedia_summary` (wikimedia.py lines 18–47). -/
def get_wikipedia_summary (term : String) (resp : HttpResult) : Except PyErr Json :=
  match resp with
  | .transportError =>
    .ok (.str "Connection error. Please check your internet connection and try again later.")
  | .response status body =>
    if status = 200 then
      match body with
      | none =>
        .ok (.str "Connection error. Please check your internet connection and try again later.")
      | some data => do
        let extract ← pyGet data "extract" (.str "")
        if !extract.truthy then
          let ty ← pyGet data "type" .null
          if Json.eqb ty (.str "disambiguation") then
            .ok (.str (squote ++ term ++ squote ++
              " refers to multiple topics. Please try a more specific search term."))
          else
            .ok (.str "No summary found. This topic might not have an article on Wikipedia yet.")
        else .ok extract
    else if status = 404 then
      .ok (.str ("The topic " ++ squote ++ term ++ squote ++
        " was not found on Wikipedia. Please check spelling or try another term."))
    else
      .ok (.str ("Error retrieving information: HTTP " ++ toString status))

/-- Embeds `get_wiktionary_definition` (wikimedia.py lines 50–79). -/
def get_wiktionary_definition (term : String) (resp : HttpResult) : Except PyErr Json :=
  match resp with
  | .transportError => .ok (.str "Connection error. Please try again later.")
  | .response status body =>
    if status = 200 then
      match body with
      | none => .ok (.str "Connection error. Please try again later.")
      | some data => do
        let pages ← mwPages data
        let pids ← pyIter pages
        let r ← mwExtractLoop pages pids
        match r with
        | some e => .ok e
        | none => .ok (.str "No definition found.")
    else .ok (.str ("Error retrieving definition: HTTP " ++ toString status))

/-- Embeds `get_wikiquote_quotes` (wikimedia.py lines 82–112). -/
def get_wikiquote_quotes (term : String) (resp : HttpResult) : Except PyErr Json :=
  match resp with
  | .transportError => .ok (.str "Connection error. Please try again later.")
  | .response status body =>
    if status = 200 then
      match body with
      | none => .ok (.str "Connection error. Please try again later.")
      | some data => do
        let pages ← mwPages data
        let pids ← pyIter pages
        let r ← quoteLoop pages pids
        match r with
        | some c => .ok c
        | none => .ok (.str "No quotes found for this topic.")
    else .ok (.str ("Error retrieving quotes: HTTP " ++ toString status))

/-- Embeds `get_wikibooks_content` (wikimedia.py lines 115–143). -/
def get_wikibooks_content (term : String) (resp : HttpResult) : Except PyErr Json :=
  match resp with
  | .transportError => .ok (.str "Connection error. Please try again later.")
  | .response status body =>
    if status = 200 then
      match body with
      | none => .ok (.str "Connection error. Please try again later.")
      | some data => do
        let pages ← mwPages data
        let pids ← pyIter pages
        let r ← mwExtractLoopGuarded pages pids
        match r with
        | some e => .ok e
        | none => .ok (.str "No Wikibooks content found for this topic.")
    else .ok (.str ("Error retrieving content: HTTP " ++ toString status))

/-- Embeds `get_wikiversity_resources` (wikimedia.py lines 248–276). -/
def get_wikiversity_resources (term : String) (resp : HttpResult) : Except PyErr Json :=
  match resp with
  | .transportError => .ok (.str "Connection error. Please try again later.")
  | .response status body =>
    if status = 200 then
      match body with
      | none => .ok (.str "Connection error. Please try again later.")
      | some data => do
        let pages ← mwPages data
        let pids ← pyIter pages
        let r ← mwExtractLoopGuarded pages pids
        match r with
        | some e => .ok e
        | none => .ok (.str "No Wikiversity resources found for this topic.")
    else .ok (.str ("Error retrieving resources: HTTP " ++ toString status))

/-- Embeds `get_wikispecies_info` (wikimedia.py lines 279–306). -/
def get_wikispecies_info (species_name : String) (resp : HttpResult) : Except PyErr Json :=
  match resp with
  | .transportError => .ok (.str "Connection error. Please try again later.")
  | .response status body =>
    if status = 200 then
      match body with
      | none => .ok (.str "Connection error. Please try again later.")
      | some data => do
        let pages ← mwPages data
        let pids ← pyIter pages
        let r ← mwExtractLoopGuarded pages pids
        match r with
        | some e => .ok e
        | none => .ok (.str "No species information found.")
    else .ok (.str ("Error retrieving species information: HTTP " ++ toString status))

/-- The search-result loop of `get_wikimedia_commons_images`
(lines 164–167): collect `result["title"]` for every hit that has a
`"title"` key. -/
def commonsTitleLoop : List Json → Except PyErr (List Json)
  | [] => .ok []
  | r :: rest => do
    let b ← pyIn (.str "title") r
    if b then
      let t ← pyIndex r (.str "title")
      let restT ← commonsTitleLoop rest
      .ok (t :: restT)
    else commonsTitleLoop rest

/-- The image-metadata loop of `get_wikimedia_commons_images`
(lines 186–202): for each page with a non-empty `imageinfo`, build the
`{title, url, description}` descriptor, keeping it only when the
thumbnail URL is truthy. -/
def commonsImageLoop (pages : Json) : List Json → Except PyErr (List Json)
  | [] => .ok []
  | pid :: rest => do
    let page ← pyIndex pages pid
    let hasII ← pyIn (.str "imageinfo") page
    if hasII then
      let ii ← pyIndex page (.str "imageinfo")
      if ii.truthy then
        let info ← pyIndex ii (.num 0)
        let titleJ ← pyGet page "title" (.str "")
        let titleS ← pyAsString titleJ
        let title := pyReplace titleS "File:" ""
        let thumb_url ← pyGet info "thumburl" (.str "")
        let em ← pyGet info "extmetadata" (.obj [])
        let idesc ← pyGet em "ImageDescription" (.obj [])
        let dvJ ← pyGet idesc "value" (.str "")
        let dv ← pyAsString dvJ
        let description := pyReplace (pyReplace dv "<p>" "") "</p>" ""
        let restL ← commonsImageLoop pages rest
        if thumb_url.truthy then
          .ok (Json.obj [("title", .str title), ("url", thumb_url),
                         ("description", .str description)] :: restL)
        else .ok restL
      else commonsImageLoop pages rest
    else commonsImageLoop pages rest

/-- Embeds `get_wikimedia_commons_images` (wikimedia.py lines 146–210).
`resp1` is the file-namespace search call, `resp2` the batch imageinfo
lookup; `resp2` is only issued (hence only examined) when the first call
produced at least one title.  The `limit` parameter only shapes the
request and is not modelled. -/
def get_wikimedia_commons_images (term : String) (resp1 resp2 : HttpResult) :
    Except PyErr Json :=
  match resp1 with
  | .transportError => .ok (.arr [])
  | .response status body =>
    if status = 200 then
      match body with
      | none => .ok (.arr [])
      | some data => do
        let q ← pyGet data "query" (.obj [])
        let sr ← pyGet q "search" (.arr [])
        let items ← pyIter sr
        let image_titles ← commonsTitleLoop items
        if image_titles.isEmpty then
          .ok (.arr [])
        else do
          let _file_titles ← pyJoin "|" image_titles
          match resp2 with
          | .transportError => .ok (.arr [])
          | .response st2 body2 =>
            if st2 = 200 then
              match body2 with
              | none => .ok (.arr [])
              | some img_data => do
                let q2 ← pyGet img_data "query" (.obj [])
                let pages ← pyGet q2 "pages" (.obj [])
                let pids ← pyIter pages
                let image_data ← commonsImageLoop pages pids
                .ok (.arr image_data)
            else .ok (.arr [])
    else .ok (.arr [])

/-- The hit loop of `get_wikisource_texts` (lines 231–237): build
`{title, snippet}` pairs, stripping search-highlight markup from the
snippet. -/
def wikisourceLoop : List Json → Except PyErr (List Json)
  | [] => .ok []
  | r :: rest => do
    let titleJ ← pyGet r "title" (.str "")
    let snipJ ← pyGet r "snippet" (.str "")
    let snipS ← pyAsString snipJ
    let snippet := pyReplace (pyReplace snipS "<span class=\"searchmatch\">" "") "</span>" ""
    let restL ← wikisourceLoop rest
    .ok (Json.obj [("title", titleJ), ("snippet", .str snippet)] :: restL)

/-- Embeds `get_wikisource_texts` (wikimedia.py lines 213–245). -/
def get_wikisource_texts (term : String) (resp : HttpResult) : Except PyErr Json :=
  match resp with
  | .transportError => .ok (.arr [])
  | .response status body =>
    if status = 200 then
      match body with
      | none => .ok (.arr [])
      | some data => do
        let q ← pyGet data "query" (.obj [])
        let sr ← pyGet q "search" (.arr [])
        let items ← pyIter sr
        let text_data ← wikisourceLoop items
        .ok (.arr text_data)
    else .ok (.arr [])

/-- The fixed allow-list of health-related Wikidata properties
(wikimedia.py lines 357–363), in source order. -/
def property_map : List (String × String) :=
  [("P2175", "medical condition treated"),
   ("P2176", "drug used for treatment"),
   ("P780", "symptoms"),
   ("P1050", "medical condition"),
   ("P1995", "health specialty")]

/-- The claim-value loop of `get_wikidata_health_info` (lines 367–372):
collect `mainsnak["datavalue"]["value"]["id"]` for each claim whose
mainsnak is a wikibase-item with a datavalue. -/
def wikidataCollectValues : List Json → Except PyErr (List Json)
  | [] => .ok []
  | claim :: rest => do
    let mainsnak ← pyGet claim "mainsnak" (.obj [])
    let dt ← pyGet mainsnak "datatype" .null
    if Json.eqb dt (.str "wikibase-item") then
      let hasDV ← pyIn (.str "datavalue") mainsnak
      if hasDV then
        let dv ← pyIndex mainsnak (.str "datavalue")
        let v ← pyIndex dv (.str "value")
        let vid ← pyIndex v (.str "id")
        let restV ← wikidataCollectValues rest
        .ok (vid :: restV)
      else wikidataCollectValues rest
    else wikidataCollectValues rest

/-- The property loop of `get_wikidata_health_info` (lines 365–375):
for each allow-listed property present in the claim set, collect its
wikibase-item values and record the property (under its human-readable
name) only when at least one value was collected. -/
def wikidataBuildProperties (claims : Json) :
    List (String × String) → Except PyErr (List (String × Json))
  | [] => .ok []
  | (prop_id, prop_name) :: rest => do
    let b ← pyIn (.str prop_id) claims
    if b then
      let cl ← pyIndex claims (.str prop_id)
      let items ← pyIter cl
      let values ← wikidataCollectValues items
      let restP ← wikidataBuildProperties claims rest
      if values.isEmpty then .ok restP
      else .ok ((prop_name, Json.arr values) :: restP)
    else wikidataBuildProperties claims rest

/-- Embeds `get_wikidata_health_info` (wikimedia.py lines 309–389).  `resp1` is
the `wbsearchentities` call, `resp2` the `wbgetentities` call; `resp2` is
only issued once the first call produced a non-empty hit list. -/
def get_wikidata_health_info (term : String) (resp1 resp2 : HttpResult) :
    Except PyErr Json :=
  match resp1 with
  | .transportError => .ok (.str "Connection error. Please try again later.")
  | .response status body =>
    if status = 200 then
      match body with
      | none => .ok (.str "Connection error. Please try again later.")
      | some data => do
        let search_results ← pyGet data "search" (.arr [])
        if !search_results.truthy then
          .ok (.str "No Wikidata information found for this term.")
        else do
          let first ← pyIndex search_results (.num 0)
          let entity_id ← pyGet first "id" .null
          match resp2 with
          | .transportError => .ok (.str "Connection error. Please try again later.")
          | .response st2 body2 =>
            if st2 = 200 then
              match body2 with
              | none => .ok (.str "Connection error. Please try again later.")
              | some entity_data => do
                let entities ← pyGet entity_data "entities" (.obj [])
                let cond ← pyIn entity_id entities
                if cond then do
                  let entity ← pyIndex entities entity_id
                  let labels ← pyGet entity "labels" (.obj [])
                  let lEn ← pyGet labels "en" (.obj [])
                  let label ← pyGet lEn "value" (.str "No label")
                  let descriptions ← pyGet entity "descriptions" (.obj [])
                  let dEn ← pyGet descriptions "en" (.obj [])
                  let description ← pyGet dEn "value" (.str "No description")
                  let claims ← pyGet entity "claims" (.obj [])
                  let properties ← wikidataBuildProperties claims property_map
                  .ok (.obj [("label", label), ("description", description),
                             ("properties", .obj properties)])
                else .ok (.str "No detailed Wikidata information available.")
            else .ok (.str "No detailed Wikidata information available.")
    else .ok (.str ("Error retrieving Wikidata: HTTP " ++ toString status))

/-! ## The aggregation coordinator (`search_all_wikimedia`) -/

/-- Python `s.replace(a, b)` for a single-character pattern is a character map. -/
def pyReplaceChar (l : List Char) (a b : Char) : List Char :=
  l.map (fun c => if c = a then b else c)

/-- Term normalization performed by `search_all_wikimedia` (line 404):
`term.strip().replace(" ", "_")`. -/
def normalize_term (t : String) : String :=
  String.mk (pyReplaceChar (pyStripChars t.data) ' ' '_')

/-- The outcomes of the eleven HTTP calls a `search_all_wikimedia`
invocation can issue (one per adapter, two each for the Commons and
Wikidata adapters). -/
structure Env where
  wikipedia : HttpResult
  wiktionary : HttpResult
  wikiquote : HttpResult
  wikibooks : HttpResult
  commons1 : HttpResult
  commons2 : HttpResult
  wikisource : HttpResult
  wikiversity : HttpResult
  wikispecies : HttpResult
  wikidata1 : HttpResult
  wikidata2 : HttpResult

/-- Embeds `search_all_wikimedia` (wikimedia.py lines 393–430): normalize the
term once, call the nine adapters in order, and assemble the result dict.
The dict literal of lines 407–417 fixes the nine keys and their insertion
order; each per-source assignment overwrites an existing key, so the
final dict has exactly those nine keys in that order. -/
def search_all_wikimedia (term : String) (env : Env) :
    Except PyErr (List (String × Json)) := do
  let search_term := normalize_term term
  let wp ← get_wikipedia_summary search_term env.wikipedia
  let wt ← get_wiktionary_definition search_term env.wiktionary
  let wq ← get_wikiquote_quotes search_term env.wikiquote
  let wb ← get_wikibooks_content search_term env.wikibooks
  let cm ← get_wikimedia_commons_images search_term env.commons1 env.commons2
  let wsrc ← get_wikisource_texts search_term env.wikisource
  let wv ← get_wikiversity_resources search_term env.wikiversity
  let wsp ← get_wikispecies_info search_term env.wikispecies
  let wd ← get_wikidata_health_info search_term env.wikidata1 env.wikidata2
  .ok [("wikipedia", wp), ("wiktionary", wt), ("wikiquote", wq),
       ("wikibooks", wb), ("commons", cm), ("wikisource", wsrc),
       ("wikiversity", wv), ("wikispecies", wsp), ("wikidata", wd)]

/-- The nine fixed source identifiers, in the order of the result-dict
literal of `search_all_wikimedia`. -/
def sourceKeys : List String :=
  ["wikipedia", "wiktionary", "wikiquote", "wikibooks", "commons",
   "wikisource", "wikiversity", "wikispecies", "wikidata"]

/-! ## Confidence-gated answer extraction (`src/app.py`) -/

/-- The outcome of one invocation of the QA pipeline on
`(question, context)`: either it raises, or it returns its result dict,
of which `answer_health_question` reads the `score` key (with default 0)
and the `answer` key (`KeyError` when absent). -/
inductive ScorerOutcome where
  | raises (detail : String) : ScorerOutcome
  | returns (score : Option ℚ) (answer : Option String) : ScorerOutcome

/-- The QA pipeline as a black-box scorer. -/
def Scorer : Type := String → String → ScorerOutcome

/-- Embeds `load_qa_pipeline` (app.py lines 283–292): `None` when the
transformers import failed, otherwise the constructed pipeline, or `None`
again if construction raised. -/
def load_qa_pipeline (aiAvailable : Bool) (construction : Except String Scorer) :
    Option Scorer :=
  if !aiAvailable then none
  else
    match construction with
    | .ok s => some s
    | .error _ => none

/-- Fixed message returned while the pipeline is unavailable
(app.py line 309). -/
def unavailableMsg : String :=
  "AI model is not available. Please check if transformers and torch are installed correctly."

/-- Fixed rejection for questions shorter than 5 characters
(app.py line 314). -/
def rejectMsg : String := "Please ask a more specific question."

/-- Fixed low-confidence refusal (app.py line 326). -/
def lowConfidenceMsg : String :=
  "I don" ++ squote ++
  "t have enough information to answer that question accurately. Please try a different question related to the topics covered."

/-- Message `f"Sorry, I couldn't process your question. Error: {str(e)}"`
of app.py line 331. -/
def scorerFaultMsg (detail : String) : String :=
  "Sorry, I couldn" ++ squote ++ "t process your question. Error: " ++ detail

/-- The post-scoring tail of `answer_health_question` (app.py lines
317–331): gate on `result.get('score', 0) < 0.1`, else return
`result['answer']`.  The reported score is modelled as an exact rational;
the CPython comparison `score < 0.1` on doubles agrees with the rational
comparison against 1/10 because no double lies strictly between 1/10 and
the double literal `0.1`.  A result dict without an `answer` key makes
`result['answer']` raise `KeyError('answer')`, caught by the
`except Exception` clause and rendered via `str(e) = "'answer'"`. -/
def scoredAnswer (outcome : ScorerOutcome) : String :=
  match outcome with
  | .raises detail => scorerFaultMsg detail
  | .returns score answer =>
    if score.getD 0 < (1 / 10 : ℚ) then lowConfidenceMsg
    else
      match answer with
      | some a => a
      | none => scorerFaultMsg (squote ++ "answer" ++ squote)

/-- Embeds `answer_health_question` proper: `None` pipeline → unavailable;
short question → rejection; otherwise score the question against the
context and gate on confidence. -/
def answer_health_question : Option Scorer → String → String → String
  | none, _, _ => unavailableMsg
  | some qa, question, context =>
    if question.length < 5 then rejectMsg
    else scoredAnswer (qa question context)

/-- An environment in which every one of the eleven HTTP calls fails at
the transport level. -/
def envAllFail : Env :=
  ⟨.transportError, .transportError, .transportError, .transportError,
   .transportError, .transportError, .transportError, .transportError,
   .transportError, .transportError, .transportError⟩

/-- The aggregated result when every HTTP call fails: each text-shaped
source carries its connection-error message, each list-shaped source an
empty list. -/
def envAllFailResult : List (String × Json) :=
  [("wikipedia", .str "Connection error. Please check your internet connection and try again later."),
   ("wiktionary", .str "Connection error. Please try again later."),
   ("wikiquote", .str "Connection error. Please try again later."),
   ("wikibooks", .str "Connection error. Please try again later."),
   ("commons", .arr []),
   ("wikisource", .arr []),
   ("wikiversity", .str "Connection error. Please try again later."),
   ("wikispecies", .str "Connection error. Please try again later."),
   ("wikidata", .str "Connection error. Please try again later.")]

/-- A MediaWiki 200 response whose body is
`{"query": {"pages": {...entries...}}}`. -/
def mwResp (entries : List (String × Json)) : HttpResult :=
  .response 200 (some (.obj [("query", .obj [("pages", .obj entries)])]))

/-- A page-id string that `int()` parses to a positive number. -/
def posKey (k : String) : Bool :=
  match pyIntOfString k with
  | some n => 0 < n
  | none => false

/-- A pages entry whose key parses to a positive page id. -/
def posKeyEntry (kv : String × Json) : Bool := posKey kv.1

/-- Concrete pages dict mixing a negative-id entry and a positive-id
entry. -/
def c7Entries : List (String × Json) :=
  [("-1", .obj [("extract", .str "missing-page content")]),
   ("7", .obj [("extract", .str "real content")])]

/-- First-call response for the C10 witness: the entity search finds
`Q42`. -/
def wdSearchResp : HttpResult :=
  .response 200 (some (.obj [("search", .arr [.obj [("id", .str "Q42")]])]))

/-- Second-call response for the C10 witness: entity `Q42` with an
English label, description and one symptoms (`P780`) wikibase-item
claim. -/
def wdEntityResp : HttpResult :=
  .response 200 (some (.obj [("entities", .obj [("Q42", .obj
    [("labels", .obj [("en", .obj [("value", .str "influenza")])]),
     ("descriptions", .obj [("en", .obj [("value", .str "disease")])]),
     ("claims", .obj [("P780", .arr [.obj [("mainsnak", .obj
        [("datatype", .str "wikibase-item"),
         ("datavalue", .obj [("value", .obj [("id", .str "Q38933")])])])]])])])])]))

/-! ## Well-formed response shapes (the standard MediaWiki wire format)

The adapters' `except requests.RequestException` clauses do not catch
`ValueError`/`TypeError`/`KeyError`/`AttributeError`, so a sufficiently
malformed 200 body can make an adapter raise (see the C2 counterexample).
The predicates below carve out the response shapes the MediaWiki APIs
actually produce — objects where objects are expected, string extracts
and titles, numerically keyed page entries — under which the adapters
are total and well-typed. -/

/-- If `k` is bound in `fields`, it is bound to a string. -/
def strFieldWF (fields : List (String × Json)) (k : String) : Bool :=
  match Json.lookup fields k with
  | none => true
  | some (.str _) => true
  | some _ => false

/-- Summary body: an object whose `extract`, if present, is a string. -/
def wikipediaBodyWF (data : Json) : Bool :=
  match data with
  | .obj fields => strFieldWF fields "extract"
  | _ => false

/-- A pages-dict value: an object whose `extract`, if present, is a
string. -/
def pageObjWF (v : Json) : Bool :=
  match v with
  | .obj pf => strFieldWF pf "extract"
  | _ => false

/-- A pages-dict entry: numerically parseable key, well-formed page
object. -/
def pageEntryWF (kv : String × Json) : Bool :=
  (pyIntOfString kv.1).isSome && pageObjWF kv.2

/-- The `pages` value of a MediaWiki query body. -/
def pagesWF (p : Json) : Bool :=
  match p with
  | .obj entries => entries.all pageEntryWF
  | _ => false

/-- A MediaWiki extract body: `query` (if present) is an object whose
`pages` (if present) is a well-formed pages dict. -/
def mwBodyWF (data : Json) : Bool :=
  match data with
  | .obj fields =>
    match Json.lookup fields "query" with
    | none => true
    | some (.obj qf) =>
      (match Json.lookup qf "pages" with
       | none => true
       | some p => pagesWF p)
    | some _ => false
  | _ => false

/-- A Commons search hit: an object whose `title`, if present, is a
string. -/
def commonsSearchEntryWF (e : Json) : Bool :=
  match e with
  | .obj fields => strFieldWF fields "title"
  | _ => false

/-- Body of the Commons file-namespace search call. -/
def commonsBody1WF (data : Json) : Bool :=
  match data with
  | .obj fields =>
    match Json.lookup fields "query" with
    | none => true
    | some (.obj qf) =>
      (match Json.lookup qf "search" with
       | none => true
       | some (.arr items) => items.all commonsSearchEntryWF
       | some _ => false)
    | some _ => false
  | _ => false

/-- If `k` is bound in `fields`, it is bound to an object satisfying
`inner`. -/
def objFieldWF (fields : List (String × Json)) (k : String)
    (inner : List (String × Json) → Bool) : Bool :=
  match Json.lookup fields k with
  | none => true
  | some (.obj f) => inner f
  | some _ => false

/-- A Commons `imageinfo` element: an object whose `extmetadata` chain,
where present, consists of objects down to a string `value`. -/
def commonsInfoWF (info : Json) : Bool :=
  match info with
  | .obj f =>
    objFieldWF f "extmetadata" (fun em =>
      objFieldWF em "ImageDescription" (fun idf => strFieldWF idf "value"))
  | _ => false

/-- A Commons imageinfo page entry: an object with a string `title`
(where present) and an `imageinfo` that, where present, is a list of
well-formed info objects. -/
def commonsPageWF (kv : String × Json) : Bool :=
  match kv.2 with
  | .obj pf =>
    strFieldWF pf "title" &&
    (match Json.lookup pf "imageinfo" with
     | none => true
     | some (.arr iis) => iis.all commonsInfoWF
     | some _ => false)
  | _ => false

/-- Body of the Commons batch imageinfo call. -/
def commonsBody2WF (data : Json) : Bool :=
  match data with
  | .obj fields =>
    match Json.lookup fields "query" with
    | none => true
    | some (.obj qf) =>
      (match Json.lookup qf "pages" with
       | none => true
       | some (.obj entries) => entries.all commonsPageWF
       | some _ => false)
    | some _ => false
  | _ => false

/-- A response is well-formed when its 200 body (if any, and if it parses
as JSON) satisfies the given body predicate; failures of any kind are
always well-formed, since the adapters absorb them. -/
def respWF (bodyWF : Json → Bool) : HttpResult → Bool
  | .transportError => true
  | .response status body =>
    if status = 200 then
      match body with
      | none => true
      | some data => bodyWF data
    else true

/-- The part of `get_wikimedia_commons_images` from the second HTTP call
onward (reached only when the first call produced at least one title);
the adapter's tail is definitionally this function. -/
def commonsSecondStage (r2 : HttpResult) : Except PyErr Json :=
  match r2 with
  | .transportError => .ok (.arr [])
  | .response st2 body2 =>
    if st2 = 200 then
      match body2 with
      | none => .ok (.arr [])
      | some img_data => do
        let q2 ← pyGet img_data "query" (.obj [])
        let pages ← pyGet q2 "pages" (.obj [])
        let pids ← pyIter pages
        let image_data ← commonsImageLoop pages pids
        .ok (.arr image_data)
    else .ok (.arr [])

/-- Body of a well-formed Commons search response carrying one hit. -/
def c5SearchBody : Json :=
  .obj [("query", .obj [("search", .arr [.obj [("title", .str "File:Apple.jpg")]])])]

/-! ## Shared lemmas -/

/-- Inversion for a successful `Except` bind. -/
theorem exceptBind_ok {α β : Type} {e : Except PyErr α} {k : α → Except PyErr β} {v : β}
    (h : (e >>= k) = .ok v) : ∃ a, e = .ok a ∧ k a = .ok v := by
  cases e with
  | error err => simp [Bind.bind, Except.bind] at h
  | ok a => exact ⟨a, rfl, by simpa [Bind.bind, Except.bind] using h⟩

theorem underscoreSpace_nonspace (c : Char) (h : isPySpace c = false) :
    isPySpace (if c = ' ' then '_' else c) = false := by
  by_cases hc : c = ' '
  · exfalso
    rw [hc] at h
    exact absurd h (by decide)
  · rw [if_neg hc]
    exact h

theorem pyStripChars_dropWhile (l : List Char) :
    (pyStripChars l).dropWhile isPySpace = pyStripChars l :=
  List.dropWhile_idempotent _ _

theorem pyStripChars_rdropWhile (l : List Char) :
    (pyStripChars l).rdropWhile isPySpace = pyStripChars l := by
  rw [List.rdropWhile_eq_self_iff]
  intro hl
  have hX : l.rdropWhile isPySpace ≠ [] := by
    intro hnil
    apply hl
    unfold pyStripChars
    rw [hnil]
    rfl
  have hlast := List.rdropWhile_last_not isPySpace l hX
  obtain ⟨t, ht⟩ := List.dropWhile_suffix (p := isPySpace) (l := l.rdropWhile isPySpace)
  have h1 : (pyStripChars l).getLast? = some ((pyStripChars l).getLast hl) :=
    List.getLast?_eq_getLast _ hl
  have h2 : (l.rdropWhile isPySpace).getLast? = some ((l.rdropWhile isPySpace).getLast hX) :=
    List.getLast?_eq_getLast _ hX
  have h3 : (l.rdropWhile isPySpace).getLast? = (pyStripChars l).getLast? := by
    conv_lhs => rw [← ht]
    rw [List.getLast?_append]
    show (pyStripChars l).getLast?.or t.getLast? = (pyStripChars l).getLast?
    rw [h1]
    rfl
  rw [h3, h1] at h2
  have h4 : (l.rdropWhile isPySpace).getLast hX = (pyStripChars l).getLast hl :=
    Option.some_injective _ h2.symm
  rw [h4] at hlast
  exact hlast

theorem pyStripChars_head_not (l : List Char) (h : 0 < (pyStripChars l).length) :
    isPySpace ((pyStripChars l).get ⟨0, h⟩) = false := by
  have := List.dropWhile_get_zero_not isPySpace (l.rdropWhile isPySpace) h
  simpa using this

theorem pyStripChars_getLast_not (l : List Char) (h : pyStripChars l ≠ []) :
    isPySpace ((pyStripChars l).getLast h) = false := by
  have h2 := (List.rdropWhile_eq_self_iff.mp (pyStripChars_rdropWhile l)) h
  simpa using h2

/-! ## C8: term normalization is idempotent -/

/-- C8. Term normalization — strip surrounding whitespace, then
replace each space with the underscore join character, exactly as
`search_all_wikimedia` line 404 computes `term.strip().replace(" ", "_")`
— is idempotent: `normalize(normalize(t)) = normalize(t)` for every
string `t`. -/
theorem normalize_term_idempotent (t : String) :
    normalize_term (normalize_term t) = normalize_term t := by
  unfold normalize_term
  set s0 := pyStripChars t.data with hs0
  set m := pyReplaceChar s0 ' ' '_' with hm
  have hdata : (String.mk m).data = m := rfl
  rw [hdata]
  have hstrip : pyStripChars m = m := by
    have hdw : m.dropWhile isPySpace = m := by
      rw [List.dropWhile_eq_self_iff]
      intro hl
      have hl0 : 0 < s0.length := by
        simpa [hm, pyReplaceChar] using hl
      have hhead := pyStripChars_head_not t.data hl0
      have : m.get ⟨0, hl⟩ = (if s0.get ⟨0, hl0⟩ = ' ' then '_' else s0.get ⟨0, hl0⟩) := by
        simp [hm, pyReplaceChar]
      rw [this]
      simpa using underscoreSpace_nonspace _ hhead
    have hrdw : m.rdropWhile isPySpace = m := by
      rw [List.rdropWhile_eq_self_iff]
      intro hl
      have hs0ne : s0 ≠ [] := by
        intro hnil
        apply hl
        rw [hm, hnil]
        rfl
      have hlast := pyStripChars_getLast_not t.data hs0ne
      have : m.getLast hl = (if s0.getLast hs0ne = ' ' then '_' else s0.getLast hs0ne) := by
        rw [List.getLast_eq_getElem, List.getLast_eq_getElem]
        simp only [hm, pyReplaceChar, List.getElem_map, List.length_map]
      rw [this]
      simpa using underscoreSpace_nonspace _ hlast
    unfold pyStripChars
    rw [hrdw, hdw]
  rw [hstrip]
  have hmap : pyReplaceChar m ' ' '_' = m := by
    rw [hm]
    unfold pyReplaceChar
    rw [List.map_map]
    apply List.map_congr_left
    intro c _
    by_cases hc : c = ' '
    · simp [hc]
    · simp [hc]
  rw [hmap]

/-! ## C1: the aggregated mapping has exactly the nine fixed keys -/

/-- C1. Whenever `search_all_wikimedia` returns a mapping, that
mapping's key sequence is exactly the nine fixed source identifiers
`wikipedia, wiktionary, wikiquote, wikibooks, commons, wikisource,
wikiversity, wikispecies, wikidata`, regardless of the outcome (including
transport failures, HTTP errors and malformed bodies) of every underlying
adapter call. -/
theorem search_all_wikimedia_keys (term : String) (env : Env)
    (m : List (String × Json)) (h : search_all_wikimedia term env = .ok m) :
    m.map Prod.fst = sourceKeys := by
  unfold search_all_wikimedia at h
  obtain ⟨wp, _, h⟩ := exceptBind_ok h
  obtain ⟨wt, _, h⟩ := exceptBind_ok h
  obtain ⟨wq, _, h⟩ := exceptBind_ok h
  obtain ⟨wb, _, h⟩ := exceptBind_ok h
  obtain ⟨cm, _, h⟩ := exceptBind_ok h
  obtain ⟨wsrc, _, h⟩ := exceptBind_ok h
  obtain ⟨wv, _, h⟩ := exceptBind_ok h
  obtain ⟨wsp, _, h⟩ := exceptBind_ok h
  obtain ⟨wd, _, h⟩ := exceptBind_ok h
  injection h with h
  rw [← h]
  rfl

/-- Witness for C1: with all eleven transport calls failing, aggregation
still returns a mapping, and its keys are the nine source identifiers. -/
theorem search_all_wikimedia_keys_witness :
    search_all_wikimedia "exercise" envAllFail = .ok envAllFailResult ∧
    envAllFailResult.map Prod.fst = sourceKeys :=
  ⟨rfl, search_all_wikimedia_keys "exercise" envAllFail envAllFailResult rfl⟩

/-! ## C9: the unavailable check precedes input validation -/

/-- C9. When the QA pipeline failed to load (`qa_pipeline is None`),
`answer_health_question` returns the fixed unavailable-model message for
every question and context — in particular for questions shorter than 5
characters, since the `None` check at line 308 precedes the length check
at line 313 — and that message is not the short-question rejection. -/
theorem answer_health_question_unavailable (question context : String) :
    answer_health_question none question context = unavailableMsg ∧
    unavailableMsg ≠ rejectMsg :=
  ⟨rfl, by decide⟩

/-! ## C4: short questions are rejected without invoking the scorer -/

/-- C4. With the pipeline loaded, a question shorter than 5
characters yields the fixed rejection message.  The scorer `qa` is
universally quantified — the result is this fixed message for *every*
scorer, including one that raises — so the scorer is demonstrably not
consulted. -/
theorem answer_health_question_short (question context : String) (qa : Scorer)
    (h : question.length < 5) :
    answer_health_question (some qa) question context = rejectMsg := by
  simp only [answer_health_question]
  rw [if_pos h]

/-- Witness for C4 at the two-character question `"hi"` and a scorer
that would raise if invoked. -/
theorem answer_health_question_short_witness :
    answer_health_question (some (fun _ _ => ScorerOutcome.raises "boom")) "hi" "ctx" =
      rejectMsg :=
  answer_health_question_short "hi" "ctx" (fun _ _ => ScorerOutcome.raises "boom") (by decide)

/-! ## C3: the confidence gate at threshold 0.1 -/

/-- C3. When the scorer runs (pipeline loaded, question long enough)
and returns a result carrying a confidence score and an extracted span:
a score strictly below 1/10 yields the fixed low-confidence refusal, and
a score of at least 1/10 yields the extracted span verbatim. -/
theorem answer_health_question_gate (question context : String) (qa : Scorer)
    (s : ℚ) (a : String)
    (hlen : ¬ question.length < 5)
    (hqa : qa question context = .returns (some s) (some a)) :
    (s < 1 / 10 → answer_health_question (some qa) question context = lowConfidenceMsg) ∧
    (1 / 10 ≤ s → answer_health_question (some qa) question context = a) := by
  constructor
  · intro hs
    simp only [answer_health_question]
    rw [if_neg hlen, hqa]
    simp only [scoredAnswer, Option.getD_some]
    rw [if_pos hs]
  · intro hs
    simp only [answer_health_question]
    rw [if_neg hlen, hqa]
    simp only [scoredAnswer, Option.getD_some]
    rw [if_neg (not_lt.mpr hs)]

/-- Witness for C3: a reported confidence of 0.05 yields the refusal even
though the span `"insulin resistance"` was extracted. -/
theorem answer_health_question_gate_witness :
    answer_health_question
      (some (fun _ _ => ScorerOutcome.returns (some (1 / 20 : ℚ)) (some "insulin resistance")))
      "What is diabetes?" "ctx" = lowConfidenceMsg :=
  (answer_health_question_gate "What is diabetes?" "ctx"
    (fun _ _ => ScorerOutcome.returns (some (1 / 20 : ℚ)) (some "insulin resistance"))
    (1 / 20) "insulin resistance" (by decide) rfl).1 (by norm_num)

/-! ## C6: status-code handling of the summary-style adapters -/

/-- C6 counterexample. On HTTP 404 the dictionary adapter
(`get_wiktionary_definition`) does *not* return a dedicated not-found
message: it returns the same HTTP-status error template it returns for
any other non-200 status (here compared against 500), because its code
has no 404 branch — only `get_wikipedia_summary` does.  Likewise for the
book adapter. -/
theorem wiktionary_404_is_http_error :
    get_wiktionary_definition "fitness" (.response 404 none) =
      .ok (.str "Error retrieving definition: HTTP 404") ∧
    get_wiktionary_definition "fitness" (.response 500 none) =
      .ok (.str "Error retrieving definition: HTTP 500") ∧
    get_wikibooks_content "fitness" (.response 404 none) =
      .ok (.str "Error retrieving content: HTTP 404") :=
  ⟨rfl, rfl, rfl⟩

/-- C6 (amended). The encyclopedia adapter alone distinguishes 404
(not-found message) from other non-200 statuses (HTTP-status error
message); the dictionary and book adapters return the HTTP-status error
message on every non-200 status including 404; all three return their
generic connectivity message on transport failure. -/
theorem summary_adapters_error_messages :
    (∀ term body, get_wikipedia_summary term (.response 404 body) =
      .ok (.str ("The topic " ++ squote ++ term ++ squote ++
        " was not found on Wikipedia. Please check spelling or try another term."))) ∧
    (∀ term status body, status ≠ 200 → status ≠ 404 →
      get_wikipedia_summary term (.response status body) =
        .ok (.str ("Error retrieving information: HTTP " ++ toString status))) ∧
    (∀ term, get_wikipedia_summary term .transportError =
      .ok (.str "Connection error. Please check your internet connection and try again later.")) ∧
    (∀ term status body, status ≠ 200 →
      get_wiktionary_definition term (.response status body) =
        .ok (.str ("Error retrieving definition: HTTP " ++ toString status))) ∧
    (∀ term, get_wiktionary_definition term .transportError =
      .ok (.str "Connection error. Please try again later.")) ∧
    (∀ term status body, status ≠ 200 →
      get_wikibooks_content term (.response status body) =
        .ok (.str ("Error retrieving content: HTTP " ++ toString status))) ∧
    (∀ term, get_wikibooks_content term .transportError =
      .ok (.str "Connection error. Please try again later.")) := by
  refine ⟨fun term body => rfl, ?_, fun term => rfl, ?_, fun term => rfl, ?_, fun term => rfl⟩
  · intro term status body h1 h2
    simp only [get_wikipedia_summary]
    rw [if_neg h1, if_neg h2]
  · intro term status body h1
    simp only [get_wiktionary_definition]
    rw [if_neg h1]
  · intro term status body h1
    simp only [get_wikibooks_content]
    rw [if_neg h1]

/-- Witness for the amended C6 at status 503. -/
theorem summary_adapters_error_messages_witness :
    get_wiktionary_definition "protein" (.response 503 none) =
      .ok (.str ("Error retrieving definition: HTTP " ++ toString 503)) :=
  summary_adapters_error_messages.2.2.2.1 "protein" 503 none (by decide)

/-! ## C7: skipping of non-positive page identifiers -/

/-- C7 counterexample. The dictionary adapter has no
`int(page_id) > 0` guard: a response entry keyed by the negative page
identifier `-1` is *not* skipped — its extract is returned. -/
theorem wiktionary_returns_negative_page_content :
    get_wiktionary_definition "t"
      (mwResp [("-1", .obj [("extract", .str "SOME CONTENT")])]) =
      .ok (.str "SOME CONTENT") ∧
    pyIntOfString "-1" = some (-1) :=
  ⟨rfl, rfl⟩

theorem exceptOk_bind {α β : Type} (a : α) (f : α → Except PyErr β) :
    ((Except.ok a : Except PyErr α) >>= f) = f a := rfl

theorem exceptBind_congr {α β : Type} {e : Except PyErr α} {f g : α → Except PyErr β}
    (h : ∀ a, f a = g a) : (e >>= f) = (e >>= g) := by
  cases e with
  | error err => rfl
  | ok a => exact h a

/-- Filtering out the non-positive-keyed entries does not change lookups
of positive keys. -/
theorem lookup_filter_posKey (entries : List (String × Json)) (k : String)
    (hk : posKey k = true) :
    Json.lookup (entries.filter posKeyEntry) k = Json.lookup entries k := by
  induction entries with
  | nil => rfl
  | cons kv rest ih =>
    obtain ⟨k', v⟩ := kv
    have hcons : Json.lookup ((k', v) :: rest) k =
        if k' = k then some v else Json.lookup rest k := rfl
    by_cases hp : posKeyEntry (k', v) = true
    · rw [List.filter_cons_of_pos hp, hcons]
      have hcons2 : Json.lookup ((k', v) :: rest.filter posKeyEntry) k =
          if k' = k then some v else Json.lookup (rest.filter posKeyEntry) k := rfl
      rw [hcons2]
      by_cases hkk : k' = k
      · rw [if_pos hkk, if_pos hkk]
      · rw [if_neg hkk, if_neg hkk, ih]
    · rw [List.filter_cons_of_neg hp, hcons]
      by_cases hkk : k' = k
      · exfalso
        apply hp
        unfold posKeyEntry
        show posKey k' = true
        rw [hkk]
        exact hk
      · rw [if_neg hkk, ih]

/-- The value `int(page_id)` computed inside the loops. -/
theorem pyIntOfJson_str (k : String) (n : Int) (hn : pyIntOfString k = some n) :
    pyIntOfJson (.str k) = .ok n := by
  show (match pyIntOfString k with
        | some n => (Except.ok n : Except PyErr Int)
        | none => .error .valueError) = .ok n
  rw [hn]

/-- The quote loop ignores entries keyed by non-positive page ids: running
it over all keys against the full pages dict equals running it over the
positive keys against the filtered dict. -/
theorem quoteLoop_filter (entries : List (String × Json)) :
    ∀ keys : List String, (∀ k ∈ keys, (pyIntOfString k).isSome) →
    quoteLoop (.obj entries) (keys.map Json.str) =
      quoteLoop (.obj (entries.filter posKeyEntry)) ((keys.filter posKey).map Json.str)
  | [], _ => rfl
  | k :: rest, hnum => by
    have hk := hnum k (List.mem_cons_self k rest)
    obtain ⟨n, hn⟩ := Option.isSome_iff_exists.mp hk
    have hrest : ∀ k' ∈ rest, (pyIntOfString k').isSome :=
      fun k' hk' => hnum k' (List.mem_cons_of_mem _ hk')
    have hint := pyIntOfJson_str k n hn
    by_cases hpos : 0 < n
    · have hposk : posKey k = true := by
        unfold posKey
        rw [hn]
        simpa using hpos
      rw [List.filter_cons_of_pos hposk]
      simp only [List.map_cons, quoteLoop]
      rw [hint, exceptOk_bind, exceptOk_bind, if_pos hpos, if_pos hpos]
      have hidx : pyIndex (.obj (entries.filter posKeyEntry)) (.str k) =
          pyIndex (.obj entries) (.str k) := by
        show (match Json.lookup (entries.filter posKeyEntry) k with
              | some v => (Except.ok v : Except PyErr Json)
              | none => .error .keyError) = pyIndex (.obj entries) (.str k)
        rw [lookup_filter_posKey entries k hposk]
        rfl
      rw [hidx]
      apply exceptBind_congr
      intro page
      apply exceptBind_congr
      intro b
      cases b with
      | false =>
        show quoteLoop (.obj entries) (rest.map Json.str) = _
        exact quoteLoop_filter entries rest hrest
      | true =>
        show (do
            let e ← pyIndex page (.str "extract")
            let content ← pyStripJson e
            if content.truthy then (.ok (some content) : Except PyErr (Option Json))
            else quoteLoop (.obj entries) (rest.map Json.str)) = _
        apply exceptBind_congr
        intro e
        apply exceptBind_congr
        intro content
        by_cases ht : content.truthy = true
        · rw [if_pos ht, if_pos ht]
        · rw [if_neg ht, if_neg ht]
          exact quoteLoop_filter entries rest hrest
    · have hposk : posKey k = false := by
        unfold posKey
        rw [hn]
        simpa using hpos
      rw [List.filter_cons_of_neg (by rw [hposk]; exact Bool.false_ne_true)]
      simp only [List.map_cons, quoteLoop]
      rw [hint, exceptOk_bind, if_neg hpos]
      exact quoteLoop_filter entries rest hrest

/-- Like `quoteLoop_filter`, for the guarded extract loop shared by the
book/course/taxonomy adapters. -/
theorem guardedLoop_filter (entries : List (String × Json)) :
    ∀ keys : List String, (∀ k ∈ keys, (pyIntOfString k).isSome) →
    mwExtractLoopGuarded (.obj entries) (keys.map Json.str) =
      mwExtractLoopGuarded (.obj (entries.filter posKeyEntry))
        ((keys.filter posKey).map Json.str)
  | [], _ => rfl
  | k :: rest, hnum => by
    have hk := hnum k (List.mem_cons_self k rest)
    obtain ⟨n, hn⟩ := Option.isSome_iff_exists.mp hk
    have hrest : ∀ k' ∈ rest, (pyIntOfString k').isSome :=
      fun k' hk' => hnum k' (List.mem_cons_of_mem _ hk')
    have hint := pyIntOfJson_str k n hn
    by_cases hpos : 0 < n
    · have hposk : posKey k = true := by
        unfold posKey
        rw [hn]
        simpa using hpos
      rw [List.filter_cons_of_pos hposk]
      simp only [List.map_cons, mwExtractLoopGuarded]
      rw [hint, exceptOk_bind, exceptOk_bind, if_pos hpos, if_pos hpos]
      have hidx : pyIndex (.obj (entries.filter posKeyEntry)) (.str k) =
          pyIndex (.obj entries) (.str k) := by
        show (match Json.lookup (entries.filter posKeyEntry) k with
              | some v => (Except.ok v : Except PyErr Json)
              | none => .error .keyError) = pyIndex (.obj entries) (.str k)
        rw [lookup_filter_posKey entries k hposk]
        rfl
      rw [hidx]
      apply exceptBind_congr
      intro page
      apply exceptBind_congr
      intro b
      cases b with
      | false =>
        show mwExtractLoopGuarded (.obj entries) (rest.map Json.str) = _
        exact guardedLoop_filter entries rest hrest
      | true => rfl
    · have hposk : posKey k = false := by
        unfold posKey
        rw [hn]
        simpa using hpos
      rw [List.filter_cons_of_neg (by rw [hposk]; exact Bool.false_ne_true)]
      simp only [List.map_cons, mwExtractLoopGuarded]
      rw [hint, exceptOk_bind, if_neg hpos]
      exact guardedLoop_filter entries rest hrest

/-- C7 (amended). The quotation and course adapters (which carry the
`int(page_id) > 0` guard) do skip every pages entry keyed by a
non-positive numeric identifier: their result over any numerically keyed
pages dict equals their result over the dict with the non-positive
entries removed.  (The dictionary adapter lacks the guard — see the
counterexample.) -/
theorem guarded_adapters_skip_nonpositive (entries : List (String × Json)) (term : String)
    (hnum : ∀ kv ∈ entries, (pyIntOfString kv.1).isSome) :
    get_wikiquote_quotes term (mwResp entries) =
      get_wikiquote_quotes term (mwResp (entries.filter posKeyEntry)) ∧
    get_wikiversity_resources term (mwResp entries) =
      get_wikiversity_resources term (mwResp (entries.filter posKeyEntry)) := by
  have hnum' : ∀ k ∈ entries.map Prod.fst, (pyIntOfString k).isSome := by
    intro k hk
    obtain ⟨kv, hkv, hkeq⟩ := List.mem_map.mp hk
    rw [← hkeq]
    exact hnum kv hkv
  have hkeys : ∀ E : List (String × Json),
      E.map (fun kv => Json.str kv.1) = (E.map Prod.fst).map Json.str := by
    intro E
    rw [List.map_map]
    rfl
  have hfilterkeys : (entries.map Prod.fst).filter posKey =
      (entries.filter posKeyEntry).map Prod.fst := by
    rw [List.filter_map]
    rfl
  have h1 : quoteLoop (.obj entries) (entries.map (fun kv => Json.str kv.1)) =
      quoteLoop (.obj (entries.filter posKeyEntry))
        ((entries.filter posKeyEntry).map (fun kv => Json.str kv.1)) := by
    rw [hkeys entries, hkeys (entries.filter posKeyEntry), ← hfilterkeys]
    exact quoteLoop_filter entries (entries.map Prod.fst) hnum'
  have h2 : mwExtractLoopGuarded (.obj entries) (entries.map (fun kv => Json.str kv.1)) =
      mwExtractLoopGuarded (.obj (entries.filter posKeyEntry))
        ((entries.filter posKeyEntry).map (fun kv => Json.str kv.1)) := by
    rw [hkeys entries, hkeys (entries.filter posKeyEntry), ← hfilterkeys]
    exact guardedLoop_filter entries (entries.map Prod.fst) hnum'
  constructor
  · exact congrArg (fun x => x >>= fun r =>
      match r with
      | some c => Except.ok c
      | none => Except.ok (Json.str "No quotes found for this topic.")) h1
  · exact congrArg (fun x => x >>= fun r =>
      match r with
      | some e => Except.ok e
      | none => Except.ok (Json.str "No Wikiversity resources found for this topic.")) h2

/-- Witness for the amended C7: on a mixed pages dict the quotation
adapter's result is unchanged when the negative-id entry is removed. -/
theorem guarded_adapters_skip_nonpositive_witness :
    get_wikiquote_quotes "t" (mwResp c7Entries) =
      get_wikiquote_quotes "t" (mwResp (c7Entries.filter posKeyEntry)) :=
  (guarded_adapters_skip_nonpositive c7Entries "t" (by decide)).1

/-! ## C10: shape of the structured knowledge-base result -/

/-- Every property recorded by the wikidata property loop is named by the
allow-list's human-readable names and carries a non-empty value list. -/
theorem wikidataBuildProperties_shape (claims : Json) :
    ∀ pm : List (String × String), ∀ props,
    wikidataBuildProperties claims pm = .ok props →
    ∀ kv ∈ props, kv.1 ∈ pm.map Prod.snd ∧
      ∃ vs, kv.2 = Json.arr vs ∧ vs ≠ []
  | [], props, h => by
    injection h with h
    rw [← h]
    intro kv hkv
    exact absurd hkv (List.not_mem_nil kv)
  | (pid, pname) :: rest, props, h => by
    simp only [wikidataBuildProperties] at h
    obtain ⟨b, hb, h⟩ := exceptBind_ok h
    cases b with
    | false =>
      simp only [Bool.false_eq_true, if_false] at h
      intro kv hkv
      obtain ⟨hmem, hval⟩ := wikidataBuildProperties_shape claims rest props h kv hkv
      exact ⟨List.mem_cons_of_mem _ hmem, hval⟩
    | true =>
      simp only [if_true] at h
      obtain ⟨cl, hcl, h⟩ := exceptBind_ok h
      obtain ⟨items, hitems, h⟩ := exceptBind_ok h
      obtain ⟨values, hvalues, h⟩ := exceptBind_ok h
      obtain ⟨restP, hrestP, h⟩ := exceptBind_ok h
      by_cases hemp : values.isEmpty = true
      · rw [if_pos hemp] at h
        injection h with h
        rw [← h]
        intro kv hkv
        obtain ⟨hmem, hval⟩ := wikidataBuildProperties_shape claims rest restP hrestP kv hkv
        exact ⟨List.mem_cons_of_mem _ hmem, hval⟩
      · rw [if_neg hemp] at h
        injection h with h
        rw [← h]
        intro kv hkv
        rcases List.mem_cons.mp hkv with hkv1 | hkv2
        · rw [hkv1]
          refine ⟨List.mem_cons_self _ _, values, rfl, ?_⟩
          intro hnil
          apply hemp
          rw [hnil]
          rfl
        · obtain ⟨hmem, hval⟩ := wikidataBuildProperties_shape claims rest restP hrestP kv hkv2
          exact ⟨List.mem_cons_of_mem _ hmem, hval⟩

/-- C10. Whenever `get_wikidata_health_info` returns a structured
result (a dict), that dict is `{label, description, properties}` and the
`properties` mapping binds only the five human-readable allow-list names,
each to a non-empty list of raw linked-entity identifiers; a property
whose claims yield no wikibase-item values is omitted rather than bound
to an empty list. -/
theorem wikidata_structured_properties (term : String) (r1 r2 : HttpResult)
    (fields : List (String × Json))
    (h : get_wikidata_health_info term r1 r2 = .ok (.obj fields)) :
    ∃ label description props,
      fields = [("label", label), ("description", description),
                ("properties", .obj props)] ∧
      ∀ kv ∈ props, kv.1 ∈ property_map.map Prod.snd ∧
        ∃ vs, kv.2 = Json.arr vs ∧ vs ≠ [] := by
  cases r1 with
  | transportError => simp [get_wikidata_health_info] at h
  | response status body =>
    by_cases hst : status = 200
    · subst hst
      cases body with
      | none => simp [get_wikidata_health_info] at h
      | some data =>
        obtain ⟨sr, hsr, h⟩ := exceptBind_ok h
        cases htr : sr.truthy with
        | false =>
          rw [htr] at h
          simp at h
        | true =>
          rw [htr] at h
          simp only [Bool.not_true, Bool.false_eq_true, if_false] at h
          obtain ⟨first, hfirst, h⟩ := exceptBind_ok h
          obtain ⟨entity_id, hent, h⟩ := exceptBind_ok h
          cases r2 with
          | transportError => simp at h
          | response st2 body2 =>
            by_cases hst2 : st2 = 200
            · subst hst2
              cases body2 with
              | none => simp at h
              | some entity_data =>
                obtain ⟨entities, hentities, h⟩ := exceptBind_ok h
                obtain ⟨cond, hcond, h⟩ := exceptBind_ok h
                cases cond with
                | false => simp at h
                | true =>
                  obtain ⟨entity, hy1, h⟩ := exceptBind_ok h
                  obtain ⟨labels, hy2, h⟩ := exceptBind_ok h
                  obtain ⟨lEn, hy3, h⟩ := exceptBind_ok h
                  obtain ⟨label, hy4, h⟩ := exceptBind_ok h
                  obtain ⟨descriptions, hy5, h⟩ := exceptBind_ok h
                  obtain ⟨dEn, hy6, h⟩ := exceptBind_ok h
                  obtain ⟨description, hy7, h⟩ := exceptBind_ok h
                  obtain ⟨claims, hy8, h⟩ := exceptBind_ok h
                  obtain ⟨props, hprops, h⟩ := exceptBind_ok h
                  injection h with h
                  injection h with h
                  refine ⟨label, description, props, h.symm, ?_⟩
                  exact wikidataBuildProperties_shape claims property_map props hprops
            · simp [hst2] at h
    · simp [get_wikidata_health_info, hst] at h

/-- Witness for C10 on a concrete structured lookup. -/
theorem wikidata_structured_properties_witness :
    ∃ label description props,
      [("label", Json.str "influenza"), ("description", Json.str "disease"),
       ("properties", Json.obj [("symptoms", Json.arr [Json.str "Q38933"])])] =
        [("label", label), ("description", description), ("properties", Json.obj props)] ∧
      ∀ kv ∈ props, kv.1 ∈ property_map.map Prod.snd ∧
        ∃ vs, kv.2 = Json.arr vs ∧ vs ≠ [] :=
  wikidata_structured_properties "flu" wdSearchResp wdEntityResp
    [("label", .str "influenza"), ("description", .str "disease"),
     ("properties", .obj [("symptoms", .arr [.str "Q38933"])])] rfl

/-! ### Evaluation helpers -/

theorem pyGet_obj (fields : List (String × Json)) (k : String) (d : Json) :
    pyGet (.obj fields) k d = .ok ((Json.lookup fields k).getD d) := by
  show (match Json.lookup fields k with
        | some v => (Except.ok v : Except PyErr Json)
        | none => .ok d) = .ok ((Json.lookup fields k).getD d)
  cases Json.lookup fields k with
  | none => rfl
  | some v => rfl

theorem pyIndex_obj_some (fields : List (String × Json)) (k : String) (v : Json)
    (h : Json.lookup fields k = some v) :
    pyIndex (.obj fields) (.str k) = .ok v := by
  show (match Json.lookup fields k with
        | some v => (Except.ok v : Except PyErr Json)
        | none => .error .keyError) = .ok v
  rw [h]

theorem pyIn_obj_str (fields : List (String × Json)) (k : String) :
    pyIn (.str k) (.obj fields) = .ok (Json.lookup fields k).isSome := rfl

theorem pyIter_obj (entries : List (String × Json)) :
    pyIter (.obj entries) = .ok (entries.map (fun kv => Json.str kv.1)) := rfl

/-- Python `lst[0]` on a non-empty list. -/
theorem pyIndex_arr_zero (x : Json) (tl : List Json) :
    pyIndex (.arr (x :: tl)) (.num 0) = .ok x := by
  unfold pyIndex
  norm_num

/-- A successful lookup finds an actual binding of the list. -/
theorem lookup_mem (fields : List (String × Json)) (k : String) (v : Json)
    (h : Json.lookup fields k = some v) : (k, v) ∈ fields := by
  induction fields with
  | nil => exact absurd h (by simp [Json.lookup])
  | cons kv rest ih =>
    obtain ⟨k', v'⟩ := kv
    have hcons : Json.lookup ((k', v') :: rest) k =
        if k' = k then some v' else Json.lookup rest k := rfl
    rw [hcons] at h
    by_cases hk : k' = k
    · rw [if_pos hk] at h
      injection h with h
      rw [← h, ← hk]
      exact List.mem_cons_self _ _
    · rw [if_neg hk] at h
      exact List.mem_cons_of_mem _ (ih h)

/-- A key taken from the field list is found by lookup. -/
theorem lookup_isSome_of_key_mem (fields : List (String × Json)) (k : String)
    (h : k ∈ fields.map Prod.fst) : (Json.lookup fields k).isSome = true := by
  induction fields with
  | nil => exact absurd h (by simp)
  | cons kv rest ih =>
    obtain ⟨k', v'⟩ := kv
    have hcons : Json.lookup ((k', v') :: rest) k =
        if k' = k then some v' else Json.lookup rest k := rfl
    rw [hcons]
    by_cases hk : k' = k
    · rw [if_pos hk]
      rfl
    · rw [if_neg hk]
      apply ih
      rcases List.mem_map.mp h with ⟨⟨k2, v2⟩, hmem, hfst⟩
      rcases List.mem_cons.mp hmem with h1 | h2
      · exfalso
        apply hk
        have hk2 : k2 = k' := congrArg Prod.fst h1
        rw [← hk2]
        exact hfst
      · exact List.mem_map.mpr ⟨(k2, v2), h2, hfst⟩

/-! ### Commons loop lemmas -/

/-- Under well-formed search hits the title loop succeeds and collects
only strings. -/
theorem commonsTitleLoop_wf :
    ∀ items : List Json, items.all commonsSearchEntryWF = true →
    ∃ ts, commonsTitleLoop items = .ok ts ∧ ∀ t ∈ ts, ∃ s, t = Json.str s
  | [], _ => ⟨[], rfl, by intro t ht; exact absurd ht (List.not_mem_nil t)⟩
  | e :: rest, hall => by
    have he : commonsSearchEntryWF e = true := by
      have := List.all_eq_true.mp hall e (List.mem_cons_self e rest)
      exact this
    have hrest : rest.all commonsSearchEntryWF = true := by
      rw [List.all_eq_true]
      intro x hx
      exact List.all_eq_true.mp hall x (List.mem_cons_of_mem _ hx)
    obtain ⟨ts, hts, htsall⟩ := commonsTitleLoop_wf rest hrest
    cases e with
    | obj fields =>
      have hloop : commonsTitleLoop (Json.obj fields :: rest) =
          (pyIn (.str "title") (.obj fields) >>= fun b =>
            if b then
              (pyIndex (.obj fields) (.str "title") >>= fun t =>
                commonsTitleLoop rest >>= fun restT => .ok (t :: restT))
            else commonsTitleLoop rest) := rfl
      rw [hloop, pyIn_obj_str, exceptOk_bind]
      cases hl : Json.lookup fields "title" with
      | none =>
        simp only [hl, Option.isSome_none, Bool.false_eq_true, if_false]
        exact ⟨ts, hts, htsall⟩
      | some v =>
        simp only [hl, Option.isSome_some, if_true]
        rw [pyIndex_obj_some fields "title" v hl, exceptOk_bind, hts, exceptOk_bind]
        refine ⟨v :: ts, rfl, ?_⟩
        intro t ht
        rcases List.mem_cons.mp ht with h1 | h2
        · rw [h1]
          have : strFieldWF fields "title" = true := he
          unfold strFieldWF at this
          rw [hl] at this
          cases v with
          | str s => exact ⟨s, rfl⟩
          | null => exact Bool.noConfusion this
          | bool b => exact Bool.noConfusion this
          | num n => exact Bool.noConfusion this
          | arr l => exact Bool.noConfusion this
          | obj f => exact Bool.noConfusion this
        · exact htsall t h2
    | null => exact Bool.noConfusion he
    | bool b => exact Bool.noConfusion he
    | num n => exact Bool.noConfusion he
    | str s => exact Bool.noConfusion he
    | arr l => exact Bool.noConfusion he

/-- Joining a list of strings succeeds. -/
theorem pyJoin_ok (sep : String) :
    ∀ ts : List Json, (∀ t ∈ ts, ∃ s, t = Json.str s) →
    ∃ s, pyJoin sep ts = .ok s
  | [], _ => ⟨"", rfl⟩
  | [j], h => by
    obtain ⟨s, hs⟩ := h j (List.mem_cons_self j [])
    rw [hs]
    exact ⟨s, rfl⟩
  | j :: j2 :: rest, h => by
    obtain ⟨s, hs⟩ := h j (List.mem_cons_self j (j2 :: rest))
    obtain ⟨r, hr⟩ := pyJoin_ok sep (j2 :: rest)
      (fun t ht => h t (List.mem_cons_of_mem _ ht))
    refine ⟨s ++ sep ++ r, ?_⟩
    rw [hs]
    show (pyAsString (.str s) >>= fun s' =>
      pyJoin sep (j2 :: rest) >>= fun r' => .ok (s' ++ sep ++ r')) =
      .ok (s ++ sep ++ r)
    rw [show pyAsString (Json.str s) = .ok s from rfl, exceptOk_bind, hr, exceptOk_bind]

/-- Under `strFieldWF`, `d.get(k, "...")` yields a string. -/
theorem strField_getD_str (fields : List (String × Json)) (k : String)
    (h : strFieldWF fields k = true) (d : String) :
    ∃ s, (Json.lookup fields k).getD (.str d) = .str s := by
  unfold strFieldWF at h
  cases hl : Json.lookup fields k with
  | none => exact ⟨d, rfl⟩
  | some v =>
    rw [hl] at h
    cases v with
    | str s => exact ⟨s, rfl⟩
    | null => exact Bool.noConfusion h
    | bool b => exact Bool.noConfusion h
    | num n => exact Bool.noConfusion h
    | arr l => exact Bool.noConfusion h
    | obj f => exact Bool.noConfusion h

/-- Under `objFieldWF`, `d.get(k, {})` yields an object satisfying the
inner predicate (which must accept the empty default). -/
theorem objField_getD (fields : List (String × Json)) (k : String)
    (inner : List (String × Json) → Bool)
    (h : objFieldWF fields k inner = true) (hnil : inner [] = true) :
    ∃ f, (Json.lookup fields k).getD (.obj []) = .obj f ∧ inner f = true := by
  unfold objFieldWF at h
  cases hl : Json.lookup fields k with
  | none => exact ⟨[], rfl, hnil⟩
  | some v =>
    rw [hl] at h
    cases v with
    | obj f => exact ⟨f, rfl, h⟩
    | null => exact Bool.noConfusion h
    | bool b => exact Bool.noConfusion h
    | num n => exact Bool.noConfusion h
    | str s => exact Bool.noConfusion h
    | arr l => exact Bool.noConfusion h

/-- Under a well-formed first response the Commons adapter either
finishes immediately with the empty list (no titles collected) or
runs its second stage. -/
theorem commons_first_stage (term : String) (data : Json)
    (hwf : commonsBody1WF data = true) (r2 : HttpResult) :
    get_wikimedia_commons_images term (.response 200 (some data)) r2 = .ok (.arr []) ∨
    get_wikimedia_commons_images term (.response 200 (some data)) r2 =
      commonsSecondStage r2 := by
  cases data with
  | obj fields =>
    have hred : get_wikimedia_commons_images term (.response 200 (some (.obj fields))) r2 =
        (pyGet (.obj fields) "query" (.obj []) >>= fun q =>
         pyGet q "search" (.arr []) >>= fun sr =>
         pyIter sr >>= fun items =>
         commonsTitleLoop items >>= fun image_titles =>
         if image_titles.isEmpty then .ok (.arr [])
         else pyJoin "|" image_titles >>= fun _file_titles =>
           commonsSecondStage r2) := rfl
    rw [hred, pyGet_obj, exceptOk_bind]
    have hwf' : (match Json.lookup fields "query" with
        | none => true
        | some (.obj qf) =>
          (match Json.lookup qf "search" with
           | none => true
           | some (.arr items) => items.all commonsSearchEntryWF
           | some _ => false)
        | some _ => false) = true := hwf
    cases hq : Json.lookup fields "query" with
    | none =>
      left
      rfl
    | some q =>
      rw [hq] at hwf'
      simp only [Option.getD_some]
      cases q with
      | obj qf =>
        have hwf2 : (match Json.lookup qf "search" with
            | none => true
            | some (.arr items) => items.all commonsSearchEntryWF
            | some _ => false) = true := hwf'
        rw [pyGet_obj, exceptOk_bind]
        cases hs : Json.lookup qf "search" with
        | none =>
          left
          rfl
        | some sv =>
          rw [hs] at hwf2
          simp only [Option.getD_some]
          cases sv with
          | arr items =>
            have hwf3 : items.all commonsSearchEntryWF = true := hwf2
            rw [show pyIter (.arr items) = .ok items from rfl, exceptOk_bind]
            obtain ⟨ts, hts, htsall⟩ := commonsTitleLoop_wf items hwf3
            rw [hts, exceptOk_bind]
            by_cases hemp : ts.isEmpty = true
            · left
              rw [if_pos hemp]
            · right
              rw [if_neg hemp]
              obtain ⟨s, hjoin⟩ := pyJoin_ok "|" ts htsall
              rw [hjoin, exceptOk_bind]
          | null => exact Bool.noConfusion hwf2
          | bool b => exact Bool.noConfusion hwf2
          | num n => exact Bool.noConfusion hwf2
          | str s => exact Bool.noConfusion hwf2
          | obj f => exact Bool.noConfusion hwf2
      | null => exact Bool.noConfusion hwf'
      | bool b => exact Bool.noConfusion hwf'
      | num n => exact Bool.noConfusion hwf'
      | str s => exact Bool.noConfusion hwf'
      | arr l => exact Bool.noConfusion hwf'
  | null => exact Bool.noConfusion hwf
  | bool b => exact Bool.noConfusion hwf
  | num n => exact Bool.noConfusion hwf
  | str s => exact Bool.noConfusion hwf
  | arr l => exact Bool.noConfusion hwf

/-- Every entry the Commons image loop emits is a complete
`{title, url, description}` descriptor whose url is truthy. -/
theorem commonsImageLoop_shape (pages : Json) :
    ∀ keys : List Json, ∀ l, commonsImageLoop pages keys = .ok l →
    ∀ e ∈ l, ∃ t u d,
      e = .obj [("title", .str t), ("url", u), ("description", .str d)] ∧
      u.truthy = true
  | [], l, h => by
    injection h with h
    rw [← h]
    intro e he
    exact absurd he (List.not_mem_nil e)
  | pid :: rest, l, h => by
    obtain ⟨page, hpage, h⟩ := exceptBind_ok h
    obtain ⟨hasII, hhas, h⟩ := exceptBind_ok h
    cases hasII with
    | false =>
      simp only [Bool.false_eq_true, if_false] at h
      exact commonsImageLoop_shape pages rest l h
    | true =>
      simp only [if_true] at h
      obtain ⟨ii, hii, h⟩ := exceptBind_ok h
      by_cases htr : ii.truthy = true
      · rw [if_pos htr] at h
        obtain ⟨info, hv1, h⟩ := exceptBind_ok h
        obtain ⟨titleJ, hv2, h⟩ := exceptBind_ok h
        obtain ⟨titleS, hv3, h⟩ := exceptBind_ok h
        obtain ⟨thumb, hv4, h⟩ := exceptBind_ok h
        obtain ⟨em, hv5, h⟩ := exceptBind_ok h
        obtain ⟨idesc, hv6, h⟩ := exceptBind_ok h
        obtain ⟨dvJ, hv7, h⟩ := exceptBind_ok h
        obtain ⟨dv, hv8, h⟩ := exceptBind_ok h
        obtain ⟨restL, hrestL, h⟩ := exceptBind_ok h
        by_cases hth : thumb.truthy = true
        · rw [if_pos hth] at h
          injection h with h
          rw [← h]
          intro e he
          rcases List.mem_cons.mp he with h1 | h2
          · exact ⟨_, thumb, _, h1, hth⟩
          · exact commonsImageLoop_shape pages rest restL hrestL e h2
        · rw [if_neg hth] at h
          injection h with h
          rw [← h]
          intro e he
          exact commonsImageLoop_shape pages rest restL hrestL e he
      · rw [if_neg htr] at h
        exact commonsImageLoop_shape pages rest l h

/-- Every value the Commons second stage returns is a list whose entries
are complete truthy-url descriptors. -/
theorem commonsSecondStage_shape (r2 : HttpResult) (j : Json)
    (h : commonsSecondStage r2 = .ok j) :
    ∃ l, j = .arr l ∧ ∀ e ∈ l, ∃ t u d,
      e = .obj [("title", .str t), ("url", u), ("description", .str d)] ∧
      u.truthy = true := by
  cases r2 with
  | transportError =>
    injection h with h
    exact ⟨[], h.symm, by intro e he; exact absurd he (List.not_mem_nil e)⟩
  | response st2 body2 =>
    by_cases hst2 : st2 = 200
    · subst hst2
      cases body2 with
      | none =>
        injection h with h
        exact ⟨[], h.symm, by intro e he; exact absurd he (List.not_mem_nil e)⟩
      | some img_data =>
        obtain ⟨q2, hq2, h⟩ := exceptBind_ok h
        obtain ⟨pages, hpages, h⟩ := exceptBind_ok h
        obtain ⟨pids, hpids, h⟩ := exceptBind_ok h
        obtain ⟨image_data, hloop, h⟩ := exceptBind_ok h
        injection h with h
        exact ⟨image_data, h.symm, commonsImageLoop_shape pages pids image_data hloop⟩
    · simp only [commonsSecondStage] at h
      rw [if_neg hst2] at h
      injection h with h
      exact ⟨[], h.symm, by intro e he; exact absurd he (List.not_mem_nil e)⟩

/-- C5. The media-search adapter returns the empty list whenever the
first call fails at the transport level, returns a non-200 status, or has
a malformed body; for a well-formed first response it likewise returns
the empty list whenever the second call fails in any of those ways; and
every entry of every list it ever returns is a complete
`{title, url, description}` descriptor with a truthy (non-empty)
thumbnail URL — never a partial entry. -/
theorem commons_empty_on_failure_and_entries :
    (∀ term r2, get_wikimedia_commons_images term .transportError r2 = .ok (.arr [])) ∧
    (∀ term status body r2, status ≠ 200 →
      get_wikimedia_commons_images term (.response status body) r2 = .ok (.arr [])) ∧
    (∀ term r2, get_wikimedia_commons_images term (.response 200 none) r2 = .ok (.arr [])) ∧
    (∀ term data r2, commonsBody1WF data = true →
      (r2 = .transportError ∨ r2 = .response 200 none ∨
        ∃ st2 b2, r2 = .response st2 b2 ∧ st2 ≠ 200) →
      get_wikimedia_commons_images term (.response 200 (some data)) r2 = .ok (.arr [])) ∧
    (∀ term r1 r2 j, get_wikimedia_commons_images term r1 r2 = .ok j →
      ∃ l, j = .arr l ∧ ∀ e ∈ l, ∃ t u d,
        e = .obj [("title", .str t), ("url", u), ("description", .str d)] ∧
        u.truthy = true) := by
  refine ⟨fun term r2 => rfl, ?_, fun term r2 => rfl, ?_, ?_⟩
  · intro term status body r2 h
    simp only [get_wikimedia_commons_images]
    rw [if_neg h]
  · intro term data r2 hwf hfail
    rcases commons_first_stage term data hwf r2 with h | h
    · exact h
    · rw [h]
      rcases hfail with hf | hf | ⟨st2, b2, hf, hst2⟩
      · rw [hf]
        rfl
      · rw [hf]
        rfl
      · rw [hf]
        simp only [commonsSecondStage]
        rw [if_neg hst2]
  · intro term r1 r2 j h
    cases r1 with
    | transportError =>
      injection h with h
      exact ⟨[], h.symm, by intro e he; exact absurd he (List.not_mem_nil e)⟩
    | response st body =>
      by_cases hst : st = 200
      · subst hst
        cases body with
        | none =>
          injection h with h
          exact ⟨[], h.symm, by intro e he; exact absurd he (List.not_mem_nil e)⟩
        | some data =>
          obtain ⟨q, hq, h⟩ := exceptBind_ok h
          obtain ⟨sr, hsr, h⟩ := exceptBind_ok h
          obtain ⟨items, hitems, h⟩ := exceptBind_ok h
          obtain ⟨ts, hts, h⟩ := exceptBind_ok h
          by_cases hemp : ts.isEmpty = true
          · rw [if_pos hemp] at h
            injection h with h
            exact ⟨[], h.symm, by intro e he; exact absurd he (List.not_mem_nil e)⟩
          · rw [if_neg hemp] at h
            obtain ⟨ft, hft, h⟩ := exceptBind_ok h
            exact commonsSecondStage_shape r2 j h
      · simp only [get_wikimedia_commons_images] at h
        rw [if_neg hst] at h
        injection h with h
        exact ⟨[], h.symm, by intro e he; exact absurd he (List.not_mem_nil e)⟩

/-- Witness for C5: a well-formed first call followed by an HTTP-500
second call yields the empty list, not a partial one. -/
theorem commons_empty_on_failure_witness :
    get_wikimedia_commons_images "apple" (.response 200 (some c5SearchBody))
      (.response 500 none) = .ok (.arr []) :=
  commons_empty_on_failure_and_entries.2.2.2.1 "apple" c5SearchBody
    (.response 500 none) rfl (Or.inr (Or.inr ⟨500, none, rfl, by decide⟩))

/-! ## C2: adapters are well-typed on well-formed responses, but can
raise on malformed ones -/

/-- C2 counterexample. A 200 response whose pages dict is keyed by a
non-numeric identifier makes the quotation adapter raise `ValueError`
(`int(page_id)` at line 102 is not protected by the
`except requests.RequestException` clause), contradicting the claim that
every adapter converts all failures and never raises. -/
theorem wikiquote_raises_on_nonnumeric_page_key :
    get_wikiquote_quotes "exercise"
      (.response 200 (some (.obj [("query", .obj [("pages",
        .obj [("notanumber", .obj [("extract", .str "Health quote")])])])]))) =
      .error .valueError := rfl

/-- Under well-formed pages entries the quote loop succeeds and yields
either no quote or a string. -/
theorem quoteLoop_wf (entries : List (String × Json)) (hall : entries.all pageEntryWF = true) :
    ∀ keys : List Json,
    (∀ kj ∈ keys, ∃ k, kj = Json.str k ∧ (Json.lookup entries k).isSome) →
    ∃ r, quoteLoop (.obj entries) keys = .ok r ∧ (r = none ∨ ∃ s, r = some (.str s))
  | [], _ => ⟨none, rfl, Or.inl rfl⟩
  | kj :: rest, hk => by
    obtain ⟨k, hkj, hsome⟩ := hk kj (List.mem_cons_self kj rest)
    obtain ⟨v, hv⟩ := Option.isSome_iff_exists.mp hsome
    have hwf : pageEntryWF (k, v) = true :=
      List.all_eq_true.mp hall (k, v) (lookup_mem entries k v hv)
    obtain ⟨hint0, hpage0⟩ := Bool.and_eq_true_iff.mp hwf
    obtain ⟨n, hn⟩ := Option.isSome_iff_exists.mp hint0
    obtain ⟨r, hr, hrshape⟩ := quoteLoop_wf entries hall rest
      (fun kj2 h2 => hk kj2 (List.mem_cons_of_mem _ h2))
    subst hkj
    simp only [quoteLoop]
    rw [pyIntOfJson_str k n hn, exceptOk_bind]
    by_cases hpos : 0 < n
    · rw [if_pos hpos, pyIndex_obj_some entries k v hv, exceptOk_bind]
      cases v with
      | obj pf =>
        have hstr : strFieldWF pf "extract" = true := hpage0
        rw [pyIn_obj_str, exceptOk_bind]
        cases he : Json.lookup pf "extract" with
        | none =>
          simp only [Option.isSome_none, Bool.false_eq_true, if_false]
          exact ⟨r, hr, hrshape⟩
        | some w =>
          simp only [Option.isSome_some, if_true]
          have hstr2 : (match Json.lookup pf "extract" with
              | none => true
              | some (.str _) => true
              | some _ => false) = true := hstr
          rw [he] at hstr2
          cases w with
          | str s =>
            rw [pyIndex_obj_some pf "extract" (.str s) he, exceptOk_bind]
            rw [show pyStripJson (.str s) = .ok (.str (pyStrip s)) from rfl, exceptOk_bind]
            by_cases ht : (Json.str (pyStrip s)).truthy = true
            · rw [if_pos ht]
              exact ⟨some (.str (pyStrip s)), rfl, Or.inr ⟨pyStrip s, rfl⟩⟩
            · rw [if_neg ht]
              exact ⟨r, hr, hrshape⟩
          | null => exact Bool.noConfusion hstr2
          | bool b => exact Bool.noConfusion hstr2
          | num m => exact Bool.noConfusion hstr2
          | arr l => exact Bool.noConfusion hstr2
          | obj f => exact Bool.noConfusion hstr2
      | null => exact Bool.noConfusion hpage0
      | bool b => exact Bool.noConfusion hpage0
      | num m => exact Bool.noConfusion hpage0
      | str s => exact Bool.noConfusion hpage0
      | arr l => exact Bool.noConfusion hpage0
    · rw [if_neg hpos]
      exact ⟨r, hr, hrshape⟩

/-- Under well-formed imageinfo pages the Commons image loop succeeds. -/
theorem commonsImageLoop_wf (entries : List (String × Json))
    (hall : entries.all commonsPageWF = true) :
    ∀ keys : List Json,
    (∀ kj ∈ keys, ∃ k, kj = Json.str k ∧ (Json.lookup entries k).isSome) →
    ∃ l, commonsImageLoop (.obj entries) keys = .ok l
  | [], _ => ⟨[], rfl⟩
  | kj :: rest, hk => by
    obtain ⟨k, hkj, hsome⟩ := hk kj (List.mem_cons_self kj rest)
    obtain ⟨v, hv⟩ := Option.isSome_iff_exists.mp hsome
    have hwf : commonsPageWF (k, v) = true :=
      List.all_eq_true.mp hall (k, v) (lookup_mem entries k v hv)
    obtain ⟨restL, hrest⟩ := commonsImageLoop_wf entries hall rest
      (fun kj2 h2 => hk kj2 (List.mem_cons_of_mem _ h2))
    subst hkj
    simp only [commonsImageLoop]
    rw [pyIndex_obj_some entries k v hv, exceptOk_bind]
    cases v with
    | obj pf =>
      have hwf' : (strFieldWF pf "title" &&
          (match Json.lookup pf "imageinfo" with
           | none => true
           | some (.arr iis) => iis.all commonsInfoWF
           | some _ => false)) = true := hwf
      obtain ⟨htitle, hii⟩ := Bool.and_eq_true_iff.mp hwf'
      rw [pyIn_obj_str, exceptOk_bind]
      cases hiil : Json.lookup pf "imageinfo" with
      | none =>
        simp only [Option.isSome_none, Bool.false_eq_true, if_false]
        exact ⟨restL, hrest⟩
      | some ii =>
        simp only [Option.isSome_some, if_true]
        rw [hiil] at hii
        rw [pyIndex_obj_some pf "imageinfo" ii hiil, exceptOk_bind]
        cases ii with
        | arr iis =>
          have hii' : iis.all commonsInfoWF = true := hii
          by_cases htr : (Json.arr iis).truthy = true
          · rw [if_pos htr]
            cases iis with
            | nil => exact absurd htr (by decide)
            | cons info0 tl =>
              have hinfo : commonsInfoWF info0 = true :=
                List.all_eq_true.mp hii' info0 (List.mem_cons_self info0 tl)
              rw [pyIndex_arr_zero info0 tl, exceptOk_bind]
              cases info0 with
              | obj f0 =>
                have hinfo' : objFieldWF f0 "extmetadata" (fun em =>
                    objFieldWF em "ImageDescription"
                      (fun idf => strFieldWF idf "value")) = true := hinfo
                rw [pyGet_obj pf "title" (.str ""), exceptOk_bind]
                obtain ⟨tS, htS⟩ := strField_getD_str pf "title" htitle ""
                rw [htS, show pyAsString (.str tS) = .ok tS from rfl, exceptOk_bind]
                rw [pyGet_obj f0 "thumburl" (.str ""), exceptOk_bind]
                rw [pyGet_obj f0 "extmetadata" (.obj []), exceptOk_bind]
                obtain ⟨em, hem, hemwf⟩ := objField_getD f0 "extmetadata" _ hinfo' rfl
                rw [hem, pyGet_obj em "ImageDescription" (.obj []), exceptOk_bind]
                obtain ⟨idf, hidf, hidfwf⟩ := objField_getD em "ImageDescription" _ hemwf rfl
                rw [hidf, pyGet_obj idf "value" (.str ""), exceptOk_bind]
                obtain ⟨dS, hdS⟩ := strField_getD_str idf "value" hidfwf ""
                rw [hdS, show pyAsString (.str dS) = .ok dS from rfl, exceptOk_bind]
                rw [hrest, exceptOk_bind]
                by_cases hth : ((Json.lookup f0 "thumburl").getD (.str "")).truthy = true
                · rw [if_pos hth]
                  exact ⟨_, rfl⟩
                · rw [if_neg hth]
                  exact ⟨restL, rfl⟩
              | null => exact Bool.noConfusion hinfo
              | bool b => exact Bool.noConfusion hinfo
              | num m => exact Bool.noConfusion hinfo
              | str s => exact Bool.noConfusion hinfo
              | arr l2 => exact Bool.noConfusion hinfo
          · rw [if_neg htr]
            exact ⟨restL, hrest⟩
        | null => exact Bool.noConfusion hii
        | bool b => exact Bool.noConfusion hii
        | num m => exact Bool.noConfusion hii
        | str s => exact Bool.noConfusion hii
        | obj f => exact Bool.noConfusion hii
    | null => exact Bool.noConfusion hwf
    | bool b => exact Bool.noConfusion hwf
    | num m => exact Bool.noConfusion hwf
    | str s => exact Bool.noConfusion hwf
    | arr l2 => exact Bool.noConfusion hwf

/-- Under a well-formed second response the Commons second stage returns
a list. -/
theorem commonsSecondStage_wf (r2 : HttpResult)
    (hwf : respWF commonsBody2WF r2 = true) :
    ∃ l, commonsSecondStage r2 = .ok (.arr l) := by
  cases r2 with
  | transportError => exact ⟨[], rfl⟩
  | response st2 body2 =>
    by_cases hst2 : st2 = 200
    · subst hst2
      cases body2 with
      | none => exact ⟨[], rfl⟩
      | some img_data =>
        have hbwf : commonsBody2WF img_data = true := hwf
        cases img_data with
        | obj fields =>
          have hred : commonsSecondStage (.response 200 (some (.obj fields))) =
              (pyGet (.obj fields) "query" (.obj []) >>= fun q2 =>
               pyGet q2 "pages" (.obj []) >>= fun pages =>
               pyIter pages >>= fun pids =>
               commonsImageLoop pages pids >>= fun image_data =>
                 .ok (.arr image_data)) := rfl
          rw [hred, pyGet_obj, exceptOk_bind]
          have hwf' : (match Json.lookup fields "query" with
              | none => true
              | some (.obj qf) =>
                (match Json.lookup qf "pages" with
                 | none => true
                 | some (.obj entries) => entries.all commonsPageWF
                 | some _ => false)
              | some _ => false) = true := hbwf
          cases hq : Json.lookup fields "query" with
          | none => exact ⟨[], rfl⟩
          | some q =>
            rw [hq] at hwf'
            simp only [Option.getD_some]
            cases q with
            | obj qf =>
              have hwf2 : (match Json.lookup qf "pages" with
                  | none => true
                  | some (.obj entries) => entries.all commonsPageWF
                  | some _ => false) = true := hwf'
              rw [pyGet_obj, exceptOk_bind]
              cases hp : Json.lookup qf "pages" with
              | none => exact ⟨[], rfl⟩
              | some p =>
                rw [hp] at hwf2
                simp only [Option.getD_some]
                cases p with
                | obj entries =>
                  have hall : entries.all commonsPageWF = true := hwf2
                  rw [pyIter_obj, exceptOk_bind]
                  obtain ⟨l, hl⟩ := commonsImageLoop_wf entries hall
                    (entries.map (fun kv => Json.str kv.1))
                    (by
                      intro kj hkj
                      obtain ⟨kv, hkv, hkeq⟩ := List.mem_map.mp hkj
                      refine ⟨kv.1, hkeq.symm, ?_⟩
                      exact lookup_isSome_of_key_mem entries kv.1
                        (List.mem_map.mpr ⟨kv, hkv, rfl⟩))
                  rw [hl, exceptOk_bind]
                  exact ⟨l, rfl⟩
                | null => exact Bool.noConfusion hwf2
                | bool b => exact Bool.noConfusion hwf2
                | num n => exact Bool.noConfusion hwf2
                | str s => exact Bool.noConfusion hwf2
                | arr l2 => exact Bool.noConfusion hwf2
            | null => exact Bool.noConfusion hwf'
            | bool b => exact Bool.noConfusion hwf'
            | num n => exact Bool.noConfusion hwf'
            | str s => exact Bool.noConfusion hwf'
            | arr l2 => exact Bool.noConfusion hwf'
        | null => exact Bool.noConfusion hbwf
        | bool b => exact Bool.noConfusion hbwf
        | num n => exact Bool.noConfusion hbwf
        | str s => exact Bool.noConfusion hbwf
        | arr l2 => exact Bool.noConfusion hbwf
    · refine ⟨[], ?_⟩
      simp only [commonsSecondStage]
      rw [if_neg hst2]

/-- C2 (amended). On transport failures, non-200 statuses, malformed
bodies, and 200 bodies in the standard MediaWiki shape (objects where
objects are expected, string extracts/titles, numerically keyed page
entries), the cited adapters return a well-typed value without raising: a
string for the encyclopedia and quotation adapters, a list for the
media-search adapter.  (Outside that shape they can raise — see the
counterexample.) -/
theorem adapters_welltyped_on_wellformed :
    (∀ term resp, respWF wikipediaBodyWF resp = true →
      ∃ s, get_wikipedia_summary term resp = .ok (.str s)) ∧
    (∀ term resp, respWF mwBodyWF resp = true →
      ∃ s, get_wikiquote_quotes term resp = .ok (.str s)) ∧
    (∀ term r1 r2, respWF commonsBody1WF r1 = true →
      respWF commonsBody2WF r2 = true →
      ∃ l, get_wikimedia_commons_images term r1 r2 = .ok (.arr l)) := by
  refine ⟨?_, ?_, ?_⟩
  · intro term resp hwf
    cases resp with
    | transportError => exact ⟨_, rfl⟩
    | response st body =>
      by_cases hst : st = 200
      · subst hst
        cases body with
        | none => exact ⟨_, rfl⟩
        | some data =>
          have hbwf : wikipediaBodyWF data = true := hwf
          cases data with
          | obj fields =>
            have hred : get_wikipedia_summary term (.response 200 (some (.obj fields))) =
                (pyGet (.obj fields) "extract" (.str "") >>= fun extract =>
                  if !extract.truthy then
                    (pyGet (.obj fields) "type" .null >>= fun ty =>
                      if Json.eqb ty (.str "disambiguation") then
                        .ok (.str (squote ++ term ++ squote ++
                          " refers to multiple topics. Please try a more specific search term."))
                      else
                        .ok (.str "No summary found. This topic might not have an article on Wikipedia yet."))
                  else .ok extract) := rfl
            rw [hred, pyGet_obj, exceptOk_bind]
            have hstr : strFieldWF fields "extract" = true := hbwf
            obtain ⟨es, hes⟩ := strField_getD_str fields "extract" hstr ""
            rw [hes]
            by_cases ht : (Json.str es).truthy = true
            · simp only [ht, Bool.not_true, Bool.false_eq_true, if_false]
              exact ⟨es, rfl⟩
            · have ht' : (Json.str es).truthy = false := by
                cases hb : (Json.str es).truthy with
                | false => rfl
                | true => exact absurd hb ht
              simp only [ht', Bool.not_false, if_true]
              rw [pyGet_obj, exceptOk_bind]
              by_cases hd : Json.eqb ((Json.lookup fields "type").getD .null)
                  (.str "disambiguation") = true
              · rw [if_pos hd]
                exact ⟨_, rfl⟩
              · rw [if_neg hd]
                exact ⟨_, rfl⟩
          | null => exact Bool.noConfusion hbwf
          | bool b => exact Bool.noConfusion hbwf
          | num n => exact Bool.noConfusion hbwf
          | str s => exact Bool.noConfusion hbwf
          | arr l => exact Bool.noConfusion hbwf
      · by_cases h404 : st = 404
        · subst h404
          exact ⟨_, rfl⟩
        · refine ⟨"Error retrieving information: HTTP " ++ toString st, ?_⟩
          simp only [get_wikipedia_summary]
          rw [if_neg hst, if_neg h404]
  · intro term resp hwf
    cases resp with
    | transportError => exact ⟨_, rfl⟩
    | response st body =>
      by_cases hst : st = 200
      · subst hst
        cases body with
        | none => exact ⟨_, rfl⟩
        | some data =>
          have hbwf : mwBodyWF data = true := hwf
          cases data with
          | obj fields =>
            have hred : get_wikiquote_quotes term (.response 200 (some (.obj fields))) =
                (mwPages (.obj fields) >>= fun pages =>
                 pyIter pages >>= fun pids =>
                 quoteLoop pages pids >>= fun r =>
                   match r with
                   | some c => .ok c
                   | none => .ok (.str "No quotes found for this topic.")) := rfl
            rw [hred, show mwPages (.obj fields) =
              (pyGet (.obj fields) "query" (.obj []) >>= fun q =>
                pyGet q "pages" (.obj [])) from rfl]
            rw [pyGet_obj, exceptOk_bind]
            have hwf' : (match Json.lookup fields "query" with
                | none => true
                | some (.obj qf) =>
                  (match Json.lookup qf "pages" with
                   | none => true
                   | some p => pagesWF p)
                | some _ => false) = true := hbwf
            cases hq : Json.lookup fields "query" with
            | none => exact ⟨_, rfl⟩
            | some q =>
              rw [hq] at hwf'
              simp only [Option.getD_some]
              cases q with
              | obj qf =>
                have hwf2 : (match Json.lookup qf "pages" with
                    | none => true
                    | some p => pagesWF p) = true := hwf'
                rw [pyGet_obj, exceptOk_bind]
                cases hp : Json.lookup qf "pages" with
                | none => exact ⟨_, rfl⟩
                | some p =>
                  rw [hp] at hwf2
                  simp only [Option.getD_some]
                  have hpwf : pagesWF p = true := hwf2
                  cases p with
                  | obj entries =>
                    have hall : entries.all pageEntryWF = true := hpwf
                    rw [pyIter_obj, exceptOk_bind]
                    obtain ⟨r, hr, hrshape⟩ := quoteLoop_wf entries hall
                      (entries.map (fun kv => Json.str kv.1))
                      (by
                        intro kj hkj
                        obtain ⟨kv, hkv, hkeq⟩ := List.mem_map.mp hkj
                        refine ⟨kv.1, hkeq.symm, ?_⟩
                        exact lookup_isSome_of_key_mem entries kv.1
                          (List.mem_map.mpr ⟨kv, hkv, rfl⟩))
                    rw [hr, exceptOk_bind]
                    rcases hrshape with h1 | ⟨s, h2⟩
                    · rw [h1]
                      exact ⟨_, rfl⟩
                    · rw [h2]
                      exact ⟨s, rfl⟩
                  | null => exact Bool.noConfusion hpwf
                  | bool b => exact Bool.noConfusion hpwf
                  | num n => exact Bool.noConfusion hpwf
                  | str s => exact Bool.noConfusion hpwf
                  | arr l => exact Bool.noConfusion hpwf
              | null => exact Bool.noConfusion hwf'
              | bool b => exact Bool.noConfusion hwf'
              | num n => exact Bool.noConfusion hwf'
              | str s => exact Bool.noConfusion hwf'
              | arr l => exact Bool.noConfusion hwf'
          | null => exact Bool.noConfusion hbwf
          | bool b => exact Bool.noConfusion hbwf
          | num n => exact Bool.noConfusion hbwf
          | str s => exact Bool.noConfusion hbwf
          | arr l => exact Bool.noConfusion hbwf
      · refine ⟨"Error retrieving quotes: HTTP " ++ toString st, ?_⟩
        simp only [get_wikiquote_quotes]
        rw [if_neg hst]
  · intro term r1 r2 hwf1 hwf2
    cases r1 with
    | transportError => exact ⟨[], rfl⟩
    | response st body =>
      by_cases hst : st = 200
      · subst hst
        cases body with
        | none => exact ⟨[], rfl⟩
        | some data =>
          have hb1 : commonsBody1WF data = true := hwf1
          rcases commons_first_stage term data hb1 r2 with h | h
          · exact ⟨[], h⟩
          · obtain ⟨l, hl⟩ := commonsSecondStage_wf r2 hwf2
            refine ⟨l, ?_⟩
            rw [h, hl]
      · refine ⟨[], ?_⟩
        simp only [get_wikimedia_commons_images]
        rw [if_neg hst]

/-- Witness for the amended C2: a numerically keyed wikiquote 200
response yields a string result. -/
theorem adapters_welltyped_witness :
    ∃ s, get_wikiquote_quotes "exercise"
      (.response 200 (some (.obj [("query", .obj [("pages",
        .obj [("42", .obj [("extract", .str "Health quote")])])])]))) =
      .ok (.str s) :=
  adapters_welltyped_on_wellformed.2.1 "exercise"
    (.response 200 (some (.obj [("query", .obj [("pages",
      .obj [("42", .obj [("extract", .str "Health quote")])])])]))) rfl
